import Mathlib

set_option maxHeartbeats 1000000

/-!
Verification development for the BOOM ground-station telemetry pipeline
(backend/src/telemetry: protocol.py, validation.py, kalman_filter.py,
event_detector.py).

Python strings are modelled as lists of characters; Python ints as ℤ;
Python floats as exact rationals (parser, validator input values, event
detector) or reals (EKF, where square roots and trigonometry appear).
Python dicts produced by the parser are modelled as association lists
from keys to values.
-/

namespace Boom

/-- A kernel-reducible decision procedure for rational comparisons, so
that concrete detector runs evaluate inside proofs. -/
instance ratDecLe (a b : ℚ) : Decidable (a ≤ b) :=
  decidable_of_iff (¬ b < a) not_lt

/-- Decimal literals such as 0.5 denote the exact rational m / 10 ^ e,
through a definition that the kernel can evaluate. -/
instance (priority := 2000) ratOfScientific : OfScientific ℚ :=
  ⟨fun m s e => if s then (m : ℚ) / (10 : ℚ) ^ e else (m : ℚ) * (10 : ℚ) ^ e⟩

/-- The default whitespace set stripped by Python str.strip (ASCII part). -/
def pyIsSpace (c : Char) : Bool :=
  c == ' ' || c == '\t' || c == '\n' || c == '\r' || c == '\x0b' || c == '\x0c'

/-- Python str.strip(): drop whitespace from both ends. -/
def pyStrip (s : List Char) : List Char :=
  ((s.dropWhile pyIsSpace).reverse.dropWhile pyIsSpace).reverse

/-- Python str.split on a one-character separator: n separators give n+1
(possibly empty) fields; the empty string gives one empty field. -/
def splitOnChar (sep : Char) : List Char → List (List Char)
  | [] => [[]]
  | c :: rest =>
    if c == sep then [] :: splitOnChar sep rest
    else
      match splitOnChar sep rest with
      | [] => [[c]]
      | f :: fs => (c :: f) :: fs

/-- Join fields with a one-character separator (inverse of splitOnChar on
separator-free fields). -/
def joinWith (sep : Char) : List (List Char) → List Char
  | [] => []
  | [f] => f
  | f :: fs => f ++ sep :: joinWith sep fs

/-- Decimal digit test (ASCII 48-57). -/
def isDigitChar (c : Char) : Bool := 48 ≤ c.toNat && c.toNat ≤ 57

/-- Value of a decimal digit character. -/
def digitVal (c : Char) : ℕ := c.toNat - 48

/-- Value of a string of decimal digits (most significant first). -/
def digitsVal (ds : List Char) : ℕ := ds.foldl (fun a c => 10 * a + digitVal c) 0

/-- The character of a decimal digit. -/
def digitChar (n : ℕ) : Char := Char.ofNat (48 + n)

/-- Decimal rendering of a natural number; the fuel argument bounds the
recursion depth and is in practice the number itself. -/
def natDigitsAux : ℕ → ℕ → List Char
  | 0, _ => []
  | fuel + 1, n => if n = 0 then [] else natDigitsAux fuel (n / 10) ++ [digitChar (n % 10)]

/-- Decimal rendering of a natural number (no sign, no padding). -/
def natToDigits (n : ℕ) : List Char := if n = 0 then ['0'] else natDigitsAux n n

/-- A nonempty all-digit string parses to its decimal value. -/
def parseDigits (ds : List Char) : Option ℕ :=
  if ds ≠ [] ∧ ds.all isDigitChar then some (digitsVal ds) else none

/-- Python int(s): optional surrounding whitespace, an optional sign and
decimal digits. (The underscore digit grouping Python also accepts is not
modelled; no wire field uses it.) -/
def parseInt (s : List Char) : Option ℤ :=
  match pyStrip s with
  | [] => none
  | c :: ds =>
    if c == '+' then (parseDigits ds).map Int.ofNat
    else if c == '-' then (parseDigits ds).map (fun n => -(Int.ofNat n))
    else (parseDigits (c :: ds)).map Int.ofNat

/-- Decimal rendering of an integer, as Python str(int) produces. -/
def intToChars (z : ℤ) : List Char :=
  if z < 0 then '-' :: natToDigits z.natAbs else natToDigits z.natAbs

/-- Python float(s), restricted to the decimal shapes the wire format can
carry: optional sign, integer digits, optional dot and fractional digits.
Exponents, infinities and nan are not modelled (no serialized field
produces them). -/
def parseUnsignedFloat (t : List Char) : Option ℚ :=
  let ip := t.takeWhile isDigitChar
  let rest := t.dropWhile isDigitChar
  match rest with
  | [] => if ip.isEmpty then none else some (digitsVal ip : ℚ)
  | c :: fp =>
    if c == '.' && fp.all isDigitChar && (!ip.isEmpty || !fp.isEmpty) then
      some ((digitsVal ip : ℚ) + (digitsVal fp : ℚ) / 10 ^ fp.length)
    else none

/-- Python float(s) with optional surrounding whitespace and sign. -/
def parseFloat (s : List Char) : Option ℚ :=
  match pyStrip s with
  | [] => none
  | c :: ds =>
    if c == '+' then parseUnsignedFloat ds
    else if c == '-' then (parseUnsignedFloat ds).map Neg.neg
    else parseUnsignedFloat (c :: ds)

/-- Left-pad the decimal rendering of n with zeros to k characters
(the strftime %02d / %04d shape). -/
def padNat (k n : ℕ) : List Char :=
  List.replicate (k - (natToDigits n).length) ('0') ++ natToDigits n

/-- Fixed two-decimal rendering of the exact value a/100, the shape the
simulator's .2f altitude formatting produces on the wire. -/
def centiToChars (a : ℤ) : List Char :=
  (if a < 0 then ['-'] else []) ++
    natToDigits (a.natAbs / 100) ++ '.' :: padNat 2 (a.natAbs % 100)

/-- A wall-clock timestamp as carried by the wire format. -/
structure DateTimeVal where
  year : ℕ
  month : ℕ
  day : ℕ
  hour : ℕ
  minute : ℕ
  second : ℕ
deriving DecidableEq

/-- Gregorian leap-year rule (as Python datetime uses). -/
def isLeapYear (y : ℕ) : Bool := (y % 4 == 0 && y % 100 != 0) || y % 400 == 0

/-- Length of a month in the Gregorian calendar. -/
def daysInMonth (y m : ℕ) : ℕ :=
  if m = 2 then (if isLeapYear y then 29 else 28)
  else if m = 4 ∨ m = 6 ∨ m = 9 ∨ m = 11 then 30
  else 31

/-- The validity ranges Python datetime enforces (strptime raises
ValueError outside them, including day-of-month by calendar). -/
def validDateTime (t : DateTimeVal) : Bool :=
  decide (1 ≤ t.year) && decide (t.year ≤ 9999) &&
  decide (1 ≤ t.month) && decide (t.month ≤ 12) &&
  decide (1 ≤ t.day) && decide (t.day ≤ daysInMonth t.year t.month) &&
  decide (t.hour ≤ 23) && decide (t.minute ≤ 59) && decide (t.second ≤ 59)

/-- A strptime numeric directive: one to maxLen decimal digits. -/
def parseFixedNat (maxLen : ℕ) (s : List Char) : Option ℕ :=
  if 1 ≤ s.length ∧ s.length ≤ maxLen ∧ s.all isDigitChar then some (digitsVal s) else none

/-- strptime of the date half of the wire timestamp (%m/%d/%Y). -/
def parseDateMDY (s : List Char) : Option (ℕ × ℕ × ℕ) :=
  match splitOnChar ('/') s with
  | [ms, ds, ys] =>
    match parseFixedNat 2 ms, parseFixedNat 2 ds, parseFixedNat 4 ys with
    | some m, some d, some y => some (m, d, y)
    | _, _, _ => none
  | _ => none

/-- strptime of the time half of the wire timestamp (%H:%M:%S). -/
def parseTimeHMS (s : List Char) : Option (ℕ × ℕ × ℕ) :=
  match splitOnChar (':') s with
  | [hs, ms, ss] =>
    match parseFixedNat 2 hs, parseFixedNat 2 ms, parseFixedNat 2 ss with
    | some h, some mi, some sec => some (h, mi, sec)
    | _, _, _ => none
  | _ => none

/-- BrunitoParser._parse_timestamp: strptime with format
%m/%d/%Y,%H:%M:%S applied to the two date/time fields, including the
range validation datetime performs. -/
def parseTimestampFields (dateS timeS : List Char) : Option DateTimeVal :=
  match parseDateMDY dateS, parseTimeHMS timeS with
  | some (m, d, y), some (h, mi, sec) =>
    let t : DateTimeVal := ⟨y, m, d, h, mi, sec⟩
    if validDateTime t then some t else none
  | _, _ => none

/-- strftime %m/%d/%Y (zero padded): the date rendering on the wire. -/
def formatDateMDY (t : DateTimeVal) : List Char :=
  padNat 2 t.month ++ '/' :: (padNat 2 t.day ++ '/' :: padNat 4 t.year)

/-- strftime %H:%M:%S: the time rendering on the wire. -/
def formatTimeHMS (t : DateTimeVal) : List Char :=
  padNat 2 t.hour ++ ':' :: (padNat 2 t.minute ++ ':' :: padNat 2 t.second)

/-- datetime.isoformat() for whole-second values: YYYY-MM-DDTHH:MM:SS. -/
def isoFormat (t : DateTimeVal) : List Char :=
  padNat 4 t.year ++ '-' :: (padNat 2 t.month ++ '-' :: (padNat 2 t.day ++
    'T' :: (padNat 2 t.hour ++ ':' :: (padNat 2 t.minute ++ ':' :: padNat 2 t.second))))

/-- A Python value as stored in the telemetry dicts. -/
inductive PyVal where
  | num (x : ℝ) : PyVal
  | str (s : List Char) : PyVal
  | boolean (b : Bool) : PyVal
  | dict (d : List (String × PyVal)) : PyVal

/-- A telemetry dict: an insertion-ordered association list. -/
abbrev PyDict := List (String × PyVal)

/-- The two counters kept by BrunitoParser. -/
structure ParserState where
  packetCount : ℤ
  errorCount : ℤ
deriving DecidableEq

/-- The dict built by BrunitoParser._parse_armed_telemetry from the scaled
raw fields, in insertion order, including the derived magnitudes added by
_calculate_derived_values. -/
noncomputable def armedDict (pc : ℤ) (ts : DateTimeVal) (alt : ℚ)
    (ax ay az gx gy gz mx my mz lat lon sats temp : ℤ) : PyDict :=
  let axv : ℝ := (ax : ℝ) * 0.001 * 9.81
  let ayv : ℝ := (ay : ℝ) * 0.001 * 9.81
  let azv : ℝ := (az : ℝ) * 0.001 * 9.81
  let gxv : ℝ := (gx : ℝ) / 100
  let gyv : ℝ := (gy : ℝ) / 100
  let gzv : ℝ := (gz : ℝ) / 100
  let mxv : ℝ := (mx : ℝ) / 10
  let myv : ℝ := (my : ℝ) / 10
  let mzv : ℝ := (mz : ℝ) / 10
  [("mode", PyVal.str ("ARMED".toList)),
   ("timestamp", PyVal.str (isoFormat ts)),
   ("packet_id", PyVal.num (pc : ℝ)),
   ("altitude_m", PyVal.num (alt : ℝ)),
   ("accel_x_mps2", PyVal.num axv),
   ("accel_y_mps2", PyVal.num ayv),
   ("accel_z_mps2", PyVal.num azv),
   ("gyro_x_dps", PyVal.num gxv),
   ("gyro_y_dps", PyVal.num gyv),
   ("gyro_z_dps", PyVal.num gzv),
   ("mag_x_ut", PyVal.num mxv),
   ("mag_y_ut", PyVal.num myv),
   ("mag_z_ut", PyVal.num mzv),
   ("latitude_deg", PyVal.num ((lat : ℝ) / 10000000)),
   ("longitude_deg", PyVal.num ((lon : ℝ) / 10000000)),
   ("gps_satellites", PyVal.num (sats : ℝ)),
   ("temperature_c", PyVal.num (temp : ℝ)),
   ("accel_magnitude_mps2", PyVal.num (Real.sqrt (axv ^ 2 + ayv ^ 2 + azv ^ 2))),
   ("accel_magnitude_g", PyVal.num (Real.sqrt (axv ^ 2 + ayv ^ 2 + azv ^ 2) / 9.81)),
   ("gyro_magnitude_dps", PyVal.num (Real.sqrt (gxv ^ 2 + gyv ^ 2 + gzv ^ 2))),
   ("mag_magnitude_ut", PyVal.num (Real.sqrt (mxv ^ 2 + myv ^ 2 + mzv ^ 2)))]

/-- The dict built by BrunitoParser._parse_recovery_telemetry. -/
noncomputable def recoveryDict (pc : ℤ) (ts : DateTimeVal) (alt : ℚ)
    (lat lon sats temp : ℤ) : PyDict :=
  [("mode", PyVal.str ("RECOVERY".toList)),
   ("timestamp", PyVal.str (isoFormat ts)),
   ("packet_id", PyVal.num (pc : ℝ)),
   ("latitude_deg", PyVal.num ((lat : ℝ) / 10000000)),
   ("longitude_deg", PyVal.num ((lon : ℝ) / 10000000)),
   ("altitude_m", PyVal.num (alt : ℝ)),
   ("gps_satellites", PyVal.num (sats : ℝ)),
   ("temperature_c", PyVal.num (temp : ℝ))]

/-- Field decoding of _parse_armed_telemetry (16 fields): the timestamp by
strptime, altitude by float(), the thirteen sensor fields by int(); any
failure aborts the whole record (the Python except branch). -/
noncomputable def parseArmedDict (pc : ℤ) (fields : List (List Char)) : Option PyDict :=
  match fields with
  | [f0, f1, f2, f3, f4, f5, f6, f7, f8, f9, f10, f11, f12, f13, f14, f15] => do
    let ts ← parseTimestampFields f0 f1
    let alt ← parseFloat f2
    let ax ← parseInt f3
    let ay ← parseInt f4
    let az ← parseInt f5
    let gx ← parseInt f6
    let gy ← parseInt f7
    let gz ← parseInt f8
    let mx ← parseInt f9
    let my ← parseInt f10
    let mz ← parseInt f11
    let lat ← parseInt f12
    let lon ← parseInt f13
    let sats ← parseInt f14
    let temp ← parseInt f15
    some (armedDict pc ts alt ax ay az gx gy gz mx my mz lat lon sats temp)
  | _ => none

/-- Field decoding of _parse_recovery_telemetry (7 fields). -/
noncomputable def parseRecoveryDict (pc : ℤ) (fields : List (List Char)) : Option PyDict :=
  match fields with
  | [f0, f1, f2, f3, f4, f5, f6] => do
    let ts ← parseTimestampFields f0 f1
    let lat ← parseInt f2
    let lon ← parseInt f3
    let alt ← parseFloat f4
    let sats ← parseInt f5
    let temp ← parseInt f6
    some (recoveryDict pc ts alt lat lon sats temp)
  | _ => none

/-- BrunitoParser.parse_telemetry: strip surrounding whitespace, require
the angle-bracket framing, split the body on commas, and route by field
count (16 armed, 7 recovery). Every failure path increments the error
counter and returns nothing; a successful record increments the packet
counter (done inside the armed/recovery helpers in the source). -/
noncomputable def parseTelemetry (st : ParserState) (line : List Char) : ParserState × Option PyDict :=
  let t := pyStrip line
  if t.head? = some '<' ∧ t.getLast? = some '>' then
    let fields := splitOnChar (',') ((t.drop 1).dropLast)
    if fields.length = 16 then
      match parseArmedDict st.packetCount fields with
      | some d => (⟨st.packetCount + 1, st.errorCount⟩, some d)
      | none => (⟨st.packetCount, st.errorCount + 1⟩, none)
    else if fields.length = 7 then
      match parseRecoveryDict st.packetCount fields with
      | some d => (⟨st.packetCount + 1, st.errorCount⟩, some d)
      | none => (⟨st.packetCount, st.errorCount + 1⟩, none)
    else (⟨st.packetCount, st.errorCount + 1⟩, none)
  else (⟨st.packetCount, st.errorCount + 1⟩, none)

/-- A raw 16-field ARMED wire record: timestamp, altitude in hundredths of
a meter (the two-decimal wire rendering), and the thirteen raw integer
sensor fields of the scale table. -/
structure RawArmed where
  ts : DateTimeVal
  altCenti : ℤ
  ax : ℤ
  ay : ℤ
  az : ℤ
  gx : ℤ
  gy : ℤ
  gz : ℤ
  mx : ℤ
  my : ℤ
  mz : ℤ
  lat : ℤ
  lon : ℤ
  sats : ℤ
  temp : ℤ

/-- The sixteen comma-separated fields a legal ARMED record puts on the
wire, in wire order. -/
def armedWireFields (r : RawArmed) : List (List Char) :=
  [formatDateMDY r.ts, formatTimeHMS r.ts, centiToChars r.altCenti,
   intToChars r.ax, intToChars r.ay, intToChars r.az,
   intToChars r.gx, intToChars r.gy, intToChars r.gz,
   intToChars r.mx, intToChars r.my, intToChars r.mz,
   intToChars r.lat, intToChars r.lon, intToChars r.sats, intToChars r.temp]

/-- Modelled from the spec: the repository has no general serializer for
armed samples (the simulator only renders its own physics state), so
serialization is taken from the spec round-trip law and wire grammar:
the sixteen fields joined by commas inside angle brackets, integers by
str(int), altitude with two decimals, timestamp as zero-padded
%m/%d/%Y,%H:%M:%S. -/
def serializeArmed (r : RawArmed) : List Char :=
  ('<' :: joinWith (',') (armedWireFields r)) ++ ['>']

/-- The characters a serialized wire field may contain: digits, minus,
dot, slash, colon. -/
def wireFieldChar (c : Char) : Bool :=
  isDigitChar c || c == '-' || c == '.' || c == '/' || c == ':'

/-- Python: key in dict. -/
def hasKey (d : PyDict) (k : String) : Bool := (d.lookup k).isSome

/-- Read a numeric dict entry with a default for a missing key
(dict.get(k, default)); the validator only reads numeric keys. -/
noncomputable def getNumD (d : PyDict) (k : String) (dflt : ℝ) : ℝ :=
  match d.lookup k with
  | some (PyVal.num x) => x
  | _ => dflt

/-- Validation limits from config.py (Settings defaults). -/
noncomputable def ACCEL_MAX_G : ℝ := 20

/-- Gyro limit (deg/s) from config.py. -/
noncomputable def GYRO_MAX_DPS : ℝ := 2000

/-- Magnetometer lower limit (uT) from config.py. -/
noncomputable def MAG_MIN_UT : ℝ := 10

/-- Magnetometer upper limit (uT) from config.py. -/
noncomputable def MAG_MAX_UT : ℝ := 100

/-- Altitude lower limit (m) from config.py. -/
noncomputable def ALTITUDE_MIN_M : ℝ := -1000

/-- Altitude upper limit (m) from config.py. -/
noncomputable def ALTITUDE_MAX_M : ℝ := 50000

/-- Temperature lower limit (C) from config.py. -/
noncomputable def TEMP_MIN_C : ℝ := -40

/-- Temperature upper limit (C) from config.py. -/
noncomputable def TEMP_MAX_C : ℝ := 85

/-- DataValidator._validate_gps. -/
noncomputable def validateGps (d : PyDict) : Bool :=
  if !(hasKey d "latitude_deg") || !(hasKey d "longitude_deg") then true
  else
    let lat := getNumD d "latitude_deg" 0
    let lon := getNumD d "longitude_deg" 0
    let sats := getNumD d "gps_satellites" 0
    if |lat| < 0.00001 ∧ |lon| < 0.00001 then false
    else if ¬(-90 ≤ lat ∧ lat ≤ 90) then false
    else if ¬(-180 ≤ lon ∧ lon ≤ 180) then false
    else if sats < 4 then false
    else true

/-- DataValidator._validate_imu: per-axis acceleration and gyro ranges,
with early exit on the first violation. -/
noncomputable def validateImu (d : PyDict) : Bool :=
  if !(hasKey d "accel_x_mps2") then true
  else if |getNumD d "accel_x_mps2" 0| > ACCEL_MAX_G * 9.81 then false
  else if |getNumD d "accel_y_mps2" 0| > ACCEL_MAX_G * 9.81 then false
  else if |getNumD d "accel_z_mps2" 0| > ACCEL_MAX_G * 9.81 then false
  else if |getNumD d "gyro_x_dps" 0| > GYRO_MAX_DPS then false
  else if |getNumD d "gyro_y_dps" 0| > GYRO_MAX_DPS then false
  else if |getNumD d "gyro_z_dps" 0| > GYRO_MAX_DPS then false
  else true

/-- DataValidator._validate_magnetometer. -/
noncomputable def validateMag (d : PyDict) : Bool :=
  if !(hasKey d "mag_x_ut") then true
  else if getNumD d "mag_x_ut" 0 = 0 ∧ getNumD d "mag_y_ut" 0 = 0 ∧
      getNumD d "mag_z_ut" 0 = 0 then false
  else if hasKey d "mag_magnitude_ut" then
    if ¬(MAG_MIN_UT ≤ getNumD d "mag_magnitude_ut" 0 ∧
        getNumD d "mag_magnitude_ut" 0 ≤ MAG_MAX_UT) then false
    else true
  else true

/-- DataValidator._validate_barometer. -/
noncomputable def validateBaro (d : PyDict) : Bool :=
  if !(hasKey d "altitude_m") then true
  else if ALTITUDE_MIN_M ≤ getNumD d "altitude_m" 0 ∧
      getNumD d "altitude_m" 0 ≤ ALTITUDE_MAX_M then true
  else false

/-- DataValidator._validate_temperature. -/
noncomputable def validateTemp (d : PyDict) : Bool :=
  if !(hasKey d "temperature_c") then true
  else if TEMP_MIN_C ≤ getNumD d "temperature_c" 0 ∧
      getNumD d "temperature_c" 0 ≤ TEMP_MAX_C then true
  else false

/-- The per-subsystem quality flags returned by validate_packet. -/
structure QualityFlags where
  gps_valid : Bool
  imu_valid : Bool
  mag_valid : Bool
  baro_valid : Bool
  temp_valid : Bool
  overall_valid : Bool
deriving DecidableEq

/-- DataValidator.validate_packet: the five subsystem checks, with the
overall flag overwritten by their conjunction. -/
noncomputable def validatePacket (d : PyDict) : QualityFlags :=
  let g := validateGps d
  let i := validateImu d
  let m := validateMag d
  let b := validateBaro d
  let t := validateTemp d
  { gps_valid := g, imu_valid := i, mag_valid := m, baro_valid := b, temp_valid := t,
    overall_valid := g && i && m && b && t }

/-- Flight phases of the event detector state machine. -/
inductive FlightPhase where
  | IDLE
  | ARMED
  | LAUNCH
  | BOOST
  | BURNOUT
  | COAST
  | APOGEE
  | DESCENT
  | LANDING
  | LANDED
deriving DecidableEq

/-- Append on a deque with a maxlen bound: the oldest entries beyond the
bound are dropped. -/
def dequeAppend (maxlen : ℕ) (xs : List ℚ) (x : ℚ) : List ℚ :=
  let ys := xs ++ [x]
  ys.drop (ys.length - maxlen)

/-- Python list slice xs[-(n):]. -/
def lastN (n : ℕ) (xs : List ℚ) : List ℚ := xs.drop (xs.length - n)

/-- Python list slice xs[-10:-3], used for the recent boost average; the
guard in the source ensures the list is longer than 10 when taken. -/
def sliceLast10to3 (xs : List ℚ) : List ℚ :=
  (xs.drop (xs.length - 10)).take ((xs.length - 3) - (xs.length - 10))

/-- np.mean of a rational list. -/
def meanQ (xs : List ℚ) : ℚ := xs.sum / xs.length

/-- Population variance, mean of squared deviations. -/
def varianceQ (xs : List ℚ) : ℚ :=
  ((xs.map (fun x => (x - meanQ xs) ^ 2)).sum) / xs.length

/-- The comparison np.std(xs) < c for a positive bound c, expressed on
squares so the value stays rational: std < c iff variance < c^2. -/
def stdLtQ (xs : List ℚ) (c : ℚ) : Bool := decide (varianceQ xs < c ^ 2)

/-- Python float truthiness of an optional value: None and 0.0 are falsy. -/
def pyTruthyQ : Option ℚ → Bool
  | none => false
  | some x => decide (x ≠ 0)

/-- Python (a or b or 0.0) over two optional floats. -/
def pyOr2 (a b : Option ℚ) : ℚ :=
  if pyTruthyQ a then a.getD 0 else if pyTruthyQ b then b.getD 0 else 0

/-- Python (a or d) over an optional float with a default. -/
def pyOr1 (a : Option ℚ) (d : ℚ) : ℚ := if pyTruthyQ a then a.getD 0 else d

/-- ApogeePredictor: three rolling histories (maxlen 50). -/
structure ApogeePredictorState where
  velocityHistory : List ℚ
  altitudeHistory : List ℚ
  timeHistory : List ℚ
deriving DecidableEq

/-- A fresh ApogeePredictor. -/
def emptyPredictor : ApogeePredictorState := ⟨[], [], []⟩

/-- ApogeePredictor.add_sample. -/
def predictorAddSample (p : ApogeePredictorState) (time alt vv : ℚ) : ApogeePredictorState :=
  { timeHistory := dequeAppend 50 p.timeHistory time,
    altitudeHistory := dequeAppend 50 p.altitudeHistory alt,
    velocityHistory := dequeAppend 50 p.velocityHistory vv }

/-- Least-squares degree-1 fit v = a*t + b (np.polyfit(ts, vs, 1)); the
rank-deficient case (all abscissae equal) is treated as the failure
branch the source catches. -/
def polyfit1 (ts vs : List ℚ) : Option (ℚ × ℚ) :=
  let n : ℚ := ts.length
  let st := ts.sum
  let sv := vs.sum
  let stt := (ts.map (fun t => t * t)).sum
  let stv := (List.zipWith (fun t v => t * v) ts vs).sum
  let den := n * stt - st * st
  if den = 0 then none
  else
    let a := (n * stv - st * sv) / den
    some (a, (sv - a * st) / n)

/-- ApogeePredictor.predict_apogee_time: linear fit over the recent
ascending samples, with the sanity window (t_now, t_now + 60). -/
def predictApogeeTime (p : ApogeePredictorState) : Option ℚ :=
  if p.velocityHistory.length < 10 then none
  else
    let recentTimes := lastN 10 p.timeHistory
    let recentVels := lastN 10 p.velocityHistory
    let pairs := List.zip recentTimes recentVels
    let asc := pairs.filter (fun tv => decide ((0.1 : ℚ) < tv.2))
    if asc.isEmpty then none
    else
      let timesAsc := asc.map Prod.fst
      let velsAsc := asc.map Prod.snd
      if timesAsc.length < 3 then none
      else
        let t0 := timesAsc.headI
        match polyfit1 (timesAsc.map (fun t => t - t0)) velsAsc with
        | none => none
        | some (a, b) =>
          if (-0.1 : ℚ) ≤ a then none
          else
            let tap := t0 + (-b / a)
            let cur := recentTimes.getLast?.getD 0
            if cur < tap ∧ tap < cur + 60 then some tap else none

/-- The data map attached to a flight event; absent keys are none (the
Python dicts carry only the contextually relevant keys). detectionNote
marks the presence of the late-detection note string; source marks the
external-command marker. -/
structure EventData where
  initialAccelerationG : Option ℚ := none
  altitudeM : Option ℚ := none
  accelerationG : Option ℚ := none
  velocityMps : Option ℚ := none
  burnTimeS : Option ℚ := none
  finalAccelerationG : Option ℚ := none
  timeSinceApogeeS : Option ℚ := none
  descentRateMps : Option ℚ := none
  finalAltitudeM : Option ℚ := none
  impactAccelerationG : Option ℚ := none
  flightTimeS : Option ℚ := none
  maxAltitudeAchievedM : Option ℚ := none
  timeToApogeeS : Option ℚ := none
  predictionErrorS : Option ℚ := none
  detectionConfidence : Option ℚ := none
  withinWindow : Option Bool := none
  detectionNote : Bool := false
  source : Bool := false
deriving DecidableEq

/-- A flight event: the type string of the source is the pair of phases
rendered as OLD_TO_NEW, so the phase pair is carried directly. -/
structure FlightEvent where
  timestamp : ℚ
  phaseFrom : FlightPhase
  phaseTo : FlightPhase
  data : EventData
  confidence : ℚ
deriving DecidableEq

/-- The whole mutable state of EnhancedEventDetector. -/
structure DetectorState where
  currentPhase : FlightPhase
  phaseHistory : List (ℚ × FlightPhase)
  missionTimeSamples : List ℚ
  accelGSamples : List ℚ
  verticalVelocitySamples : List ℚ
  altitudeSamples : List ℚ
  apogeePredictor : ApogeePredictorState
  predictedApogeeMissionTime : Option ℚ
  apogeeWindowStartTime : Option ℚ
  apogeeWindowEndTime : Option ℚ
  apogeeEventTriggered : Bool
  maxAltitudeM : ℚ
  maxAltitudeMissionTime : Option ℚ
  launchMissionTime : Option ℚ
  burnoutMissionTime : Option ℚ
  apogeeMissionTime : Option ℚ
  landingMissionTime : Option ℚ
  currentMissionTimeS : ℚ
  events : List FlightEvent
  statsMaxAccelerationG : ℚ
  statsMaxVelocityMps : ℚ
  statsMaxAltitudeM : ℚ
  statsTotalFlightTimeS : ℚ
  phaseDurations : FlightPhase → ℚ

/-- EnhancedEventDetector._reset_detection_state, with the wall-clock
datetime.now() at reset passed in as now. -/
def resetDetectionState (now : ℚ) : DetectorState :=
  { currentPhase := FlightPhase.IDLE
    phaseHistory := [(now, FlightPhase.IDLE)]
    missionTimeSamples := []
    accelGSamples := []
    verticalVelocitySamples := []
    altitudeSamples := []
    apogeePredictor := emptyPredictor
    predictedApogeeMissionTime := none
    apogeeWindowStartTime := none
    apogeeWindowEndTime := none
    apogeeEventTriggered := false
    maxAltitudeM := 0
    maxAltitudeMissionTime := none
    launchMissionTime := none
    burnoutMissionTime := none
    apogeeMissionTime := none
    landingMissionTime := none
    currentMissionTimeS := 0
    events := []
    statsMaxAccelerationG := 0
    statsMaxVelocityMps := 0
    statsMaxAltitudeM := 0
    statsTotalFlightTimeS := 0
    phaseDurations := fun _ => 0 }

/-- EnhancedEventDetector._transition_to: set the phase, account the old
phase duration, append the history entry and the event. -/
def transitionTo (st : DetectorState) (newPhase : FlightPhase) (ts : ℚ)
    (data : EventData) : DetectorState × FlightEvent :=
  let oldPhase := st.currentPhase
  let durs := match st.phaseHistory.getLast? with
    | some prev => fun p =>
        if p = oldPhase then st.phaseDurations p + (ts - prev.1) else st.phaseDurations p
    | none => st.phaseDurations
  let ev : FlightEvent :=
    { timestamp := ts, phaseFrom := oldPhase, phaseTo := newPhase, data := data,
      confidence := data.detectionConfidence.getD 1 }
  ({ st with currentPhase := newPhase,
             phaseDurations := durs,
             phaseHistory := st.phaseHistory ++ [(ts, newPhase)],
             events := st.events ++ [ev] }, ev)

/-- set_phase_externally(ARMED) as invoked by arm_system: full reset (the
wall clock read inside the reset is tReset), explicit drop to IDLE, then
the transition to ARMED stamped with the wall clock tNow of the command.
Both the fresh-arm and the re-arm branch of the source reduce to this. -/
def armDetector (tReset tNow : ℚ) : DetectorState × FlightEvent :=
  let r := resetDetectionState tReset
  let r1 := { r with currentPhase := FlightPhase.IDLE }
  transitionTo r1 FlightPhase.ARMED tNow { source := true }

/-- EnhancedEventDetector._check_launch_conditions: at least
int(0.3 * 10) = 3 samples, and the last 3 all strictly above 2.0 g. -/
def checkLaunchConditions (st : DetectorState) : Bool :=
  if st.accelGSamples.length < 3 then false
  else
    let recent := lastN 3 st.accelGSamples
    if recent.isEmpty then false
    else recent.all (fun a => decide ((2 : ℚ) < a))

/-- EnhancedEventDetector._check_burnout_conditions. -/
def checkBurnoutConditions (st : DetectorState) (currentAccelG : ℚ) : Bool :=
  if st.accelGSamples.length < 5 then false
  else
    let avgBoost := if 10 < st.accelGSamples.length
      then meanQ (sliceLast10to3 st.accelGSamples) else (2 : ℚ) * 1.5
    decide (currentAccelG < avgBoost - 1.5 ∧ currentAccelG < 2)

/-- EnhancedEventDetector._check_landed_conditions; the std comparison is
carried on squares (stdLtQ). -/
def checkLandedConditions (st : DetectorState) (altitudeM vv accelG : ℚ) : Bool :=
  if st.accelGSamples.length < 10 ∨ st.verticalVelocitySamples.length < 10 then false
  else
    let recent := lastN 10 st.accelGSamples
    decide (altitudeM < 20 / 2) && decide (|vv| < 0.5) && stdLtQ recent 0.1 &&
      decide (|meanQ recent - 1| < 0.2)

/-- EnhancedEventDetector._start_apogee_prediction_window. -/
def startApogeeWindow (st : DetectorState) (vv : ℚ) : DetectorState :=
  if 0 < vv then
    let predicted := st.currentMissionTimeS + vv / 9.81
    { st with predictedApogeeMissionTime := some predicted,
              apogeeWindowStartTime := some (predicted - 5),
              apogeeWindowEndTime := some (predicted + 5) }
  else st

/-- EnhancedEventDetector._check_apogee_conditions: confidence
accumulation, the live prediction refresh, and the late fallback. -/
def checkApogeeConditions (st : DetectorState) (vv altitudeM ts : ℚ) :
    DetectorState × Option FlightEvent :=
  if st.apogeeEventTriggered then (st, none)
  else
    let isVelocityNearZero := decide (|vv| < 0.5)
    let isAtMaxAltitude := match st.maxAltitudeMissionTime with
      | some mt => decide (|st.currentMissionTimeS - mt| < 1 ∧ |altitudeM - st.maxAltitudeM| < 5)
      | none => false
    let live := predictApogeeTime st.apogeePredictor
    let st1 := if pyTruthyQ live then { st with predictedApogeeMissionTime := live } else st
    let withinWindow :=
      if pyTruthyQ st1.apogeeWindowStartTime && pyTruthyQ st1.apogeeWindowEndTime then
        decide (st1.apogeeWindowStartTime.getD 0 ≤ st1.currentMissionTimeS ∧
          st1.currentMissionTimeS ≤ st1.apogeeWindowEndTime.getD 0)
      else false
    let confidence : ℚ :=
      (if isVelocityNearZero then 0.5 else 0) + (if isAtMaxAltitude then 0.3 else 0) +
      (if withinWindow = true ∧ st1.predictedApogeeMissionTime ≠ none ∧
          |st1.currentMissionTimeS - st1.predictedApogeeMissionTime.getD 0| < 2
        then 0.2 else 0)
    if 0.75 ≤ confidence then
      let st2 := { st1 with apogeeMissionTime := some st1.currentMissionTimeS,
                            apogeeEventTriggered := true }
      let data : EventData :=
        { altitudeM := some st2.maxAltitudeM, velocityMps := some vv,
          timeToApogeeS := some (st2.currentMissionTimeS -
            pyOr2 st2.burnoutMissionTime st2.launchMissionTime),
          predictionErrorS := some (st2.currentMissionTimeS -
            st2.predictedApogeeMissionTime.getD st2.currentMissionTimeS),
          detectionConfidence := some confidence,
          withinWindow := some withinWindow }
      let r := transitionTo st2 FlightPhase.APOGEE ts data
      (r.1, some r.2)
    else if pyTruthyQ st1.apogeeWindowEndTime ∧
        st1.apogeeWindowEndTime.getD 0 + 2 < st1.currentMissionTimeS ∧
        vv < -(0.5 * 3) then
      let st2 := { st1 with
        apogeeMissionTime := some (pyOr1 st1.maxAltitudeMissionTime st1.currentMissionTimeS),
        apogeeEventTriggered := true }
      let data : EventData :=
        { altitudeM := some st2.maxAltitudeM, velocityMps := some vv,
          timeToApogeeS := some ((pyOr1 st1.maxAltitudeMissionTime st1.currentMissionTimeS) -
            pyOr2 st2.burnoutMissionTime st2.launchMissionTime),
          detectionNote := true,
          detectionConfidence := some (0.5 : ℚ) }
      let r := transitionTo st2 FlightPhase.APOGEE ts data
      (r.1, some r.2)
    else (st1, none)

/-- The telemetry fields the event detector reads from each enriched
record: the packet timestamp in seconds, and the optional
accel_magnitude_g, altitude_m, and filtered_state.vertical_velocity. -/
structure DetInput where
  timestamp : ℚ
  accelMagnitudeG : Option ℚ
  altitudeM : Option ℚ
  filteredVerticalVelocity : Option ℚ
deriving DecidableEq

/-- The prelude of EnhancedEventDetector.process_telemetry: mission time
from the first history entry, sample appends, the backward-difference
velocity estimate, and the running maxima. Returns the updated state with
the mission time, acceleration (g), altitude and vertical velocity the
state machine uses. -/
def detPrelude (st : DetectorState) (tel : DetInput) :
    DetectorState × ℚ × ℚ × ℚ × ℚ :=
  let st0 := if st.phaseHistory.isEmpty then
      { resetDetectionState tel.timestamp with
          phaseHistory := [(tel.timestamp, (resetDetectionState tel.timestamp).currentPhase)] }
    else st
  let mt := tel.timestamp - ((st0.phaseHistory.head?.getD (0, FlightPhase.IDLE)).1)
  let st1 := { st0 with currentMissionTimeS := mt,
                        missionTimeSamples := dequeAppend 20 st0.missionTimeSamples mt }
  let accelG := tel.accelMagnitudeG.getD 1
  let altitudeM := tel.altitudeM.getD 0
  let vvRaw := tel.filteredVerticalVelocity.getD 0
  let vv := if vvRaw = 0 ∧ 1 < st1.altitudeSamples.length ∧ 1 < st1.missionTimeSamples.length
    then
      let dtEst := st1.missionTimeSamples.getLast?.getD 0 -
        (st1.missionTimeSamples.dropLast).getLast?.getD 0
      if 0.001 < dtEst then (altitudeM - st1.altitudeSamples.getLast?.getD 0) / dtEst
      else vvRaw
    else vvRaw
  let st2 := { st1 with accelGSamples := dequeAppend 20 st1.accelGSamples accelG,
                        altitudeSamples := dequeAppend 100 st1.altitudeSamples altitudeM,
                        verticalVelocitySamples :=
                          dequeAppend 50 st1.verticalVelocitySamples vv }
  let st3 := if st2.maxAltitudeM < altitudeM then
      { st2 with maxAltitudeM := altitudeM, maxAltitudeMissionTime := some mt } else st2
  let st4 := { st3 with statsMaxAccelerationG := max st3.statsMaxAccelerationG accelG,
                        statsMaxVelocityMps := max st3.statsMaxVelocityMps |vv|,
                        statsMaxAltitudeM := st3.maxAltitudeM }
  (st4, mt, accelG, altitudeM, vv)

/-- The phase state machine of EnhancedEventDetector.process_telemetry
(one branch per current phase; each emits at most one transition). -/
def detMachine (st4 : DetectorState) (tel : DetInput)
    (mt accelG altitudeM vv : ℚ) : DetectorState × List FlightEvent :=
  match st4.currentPhase with
  | FlightPhase.ARMED =>
    if checkLaunchConditions st4 then
      let st5 := { st4 with launchMissionTime := some mt }
      let r := transitionTo st5 FlightPhase.LAUNCH tel.timestamp
        { initialAccelerationG := some accelG, altitudeM := some altitudeM }
      (r.1, [r.2])
    else (st4, [])
  | FlightPhase.LAUNCH =>
    if pyTruthyQ st4.launchMissionTime ∧ 0.3 < mt - st4.launchMissionTime.getD 0 then
      if (2 : ℚ) * 0.8 < accelG then
        let r := transitionTo st4 FlightPhase.BOOST tel.timestamp
          { accelerationG := some accelG, altitudeM := some altitudeM,
            velocityMps := some vv }
        (r.1, [r.2])
      else if pyTruthyQ st4.launchMissionTime ∧ 2 < mt - st4.launchMissionTime.getD 0 then
        if accelG < 1.5 then
          let st5 := { st4 with burnoutMissionTime := some mt }
          let r := transitionTo st5 FlightPhase.BURNOUT tel.timestamp {}
          (r.1, [r.2])
        else
          let r := transitionTo st4 FlightPhase.BOOST tel.timestamp {}
          (r.1, [r.2])
      else (st4, [])
    else (st4, [])
  | FlightPhase.BOOST =>
    if checkBurnoutConditions st4 accelG then
      let st5 := { st4 with burnoutMissionTime := some mt }
      let r := transitionTo st5 FlightPhase.BURNOUT tel.timestamp
        { finalAccelerationG := some accelG, altitudeM := some altitudeM,
          velocityMps := some vv,
          burnTimeS := some (mt - pyOr1 st5.launchMissionTime 0) }
      (startApogeeWindow r.1 vv, [r.2])
    else (st4, [])
  | FlightPhase.BURNOUT =>
    if pyTruthyQ st4.burnoutMissionTime ∧ 0.2 < mt - st4.burnoutMissionTime.getD 0 then
      let r := transitionTo st4 FlightPhase.COAST tel.timestamp
        { altitudeM := some altitudeM, velocityMps := some vv }
      (r.1, [r.2])
    else (st4, [])
  | FlightPhase.COAST =>
    let st5 := { st4 with
      apogeePredictor := predictorAddSample st4.apogeePredictor mt altitudeM vv }
    let r := checkApogeeConditions st5 vv altitudeM tel.timestamp
    (r.1, r.2.toList)
  | FlightPhase.APOGEE =>
    if vv < -(0.5 * 2) then
      let r := transitionTo st4 FlightPhase.DESCENT tel.timestamp
        { altitudeM := some altitudeM, velocityMps := some vv,
          timeSinceApogeeS := some (mt - pyOr1 st4.apogeeMissionTime mt) }
      (r.1, [r.2])
    else (st4, [])
  | FlightPhase.DESCENT =>
    if altitudeM < 20 ∧ vv < -1 then
      let r := transitionTo st4 FlightPhase.LANDING tel.timestamp
        { altitudeM := some altitudeM, descentRateMps := some |vv| }
      (r.1, [r.2])
    else (st4, [])
  | FlightPhase.LANDING =>
    if checkLandedConditions st4 altitudeM vv accelG then
      let st5 := { st4 with landingMissionTime := some mt,
                            statsTotalFlightTimeS := mt - pyOr1 st4.launchMissionTime 0 }
      let r := transitionTo st5 FlightPhase.LANDED tel.timestamp
        { finalAltitudeM := some altitudeM, impactAccelerationG := some accelG,
          flightTimeS := some st5.statsTotalFlightTimeS,
          maxAltitudeAchievedM := some st5.maxAltitudeM }
      (r.1, [r.2])
    else (st4, [])
  | FlightPhase.IDLE => (st4, [])
  | FlightPhase.LANDED => (st4, [])

/-- EnhancedEventDetector.process_telemetry: the prelude followed by the
phase state machine; returns the new state and the events emitted by this
packet (at most one). -/
def detProcessTelemetry (st : DetectorState) (tel : DetInput) :
    DetectorState × List FlightEvent :=
  let p := detPrelude st tel
  detMachine p.1 tel p.2.1 p.2.2.1 p.2.2.2.1 p.2.2.2.2

/-- Run a detector session over a list of packets in order, collecting
the emitted events. -/
def runDetector : DetectorState → List DetInput → DetectorState × List FlightEvent
  | st, [] => (st, [])
  | st, tel :: tels =>
    let r := detProcessTelemetry st tel
    let rest := runDetector r.1 tels
    (rest.1, r.2 ++ rest.2)

/-- An event announcing entry into the APOGEE phase. -/
def isApogeeEvent (ev : FlightEvent) : Bool := decide (ev.phaseTo = FlightPhase.APOGEE)

/-- Number of apogee events in a list. -/
def countApogee (evs : List FlightEvent) : ℕ := (evs.filter isApogeeEvent).length

/-- Timestamp monotonicity of a phase history. -/
def historyMono (h : List (ℚ × FlightPhase)) : Prop :=
  h.Chain' (fun a b => a.1 ≤ b.1)

/-- Executable check for historyMono. -/
def historyMonoB : List (ℚ × FlightPhase) → Bool
  | [] => true
  | [_] => true
  | a :: b :: rest => decide (a.1 ≤ b.1) && historyMonoB (b :: rest)

instance : DecidablePred historyMono := fun h =>
  decidable_of_iff (historyMonoB h = true) (by
    induction h with
    | nil => simp [historyMonoB, historyMono]
    | cons a t ih =>
      cases t with
      | nil => simp [historyMonoB, historyMono]
      | cons b rest =>
        rw [historyMonoB, Bool.and_eq_true, decide_eq_true_eq, ih]
        rw [historyMono, historyMono, List.chain'_cons])

/-- Apogee budget of a detector state: 1 while the apogee event has not
fired yet, 0 afterwards. -/
def potQ (st : DetectorState) : ℕ := if st.apogeeEventTriggered then 0 else 1

/-- Timestamp of the newest phase-history entry. -/
def lastTime (st : DetectorState) : ℚ :=
  ((st.phaseHistory.getLast?).getD (0, FlightPhase.IDLE)).1

/-- The quality dict attached to the telemetry record (main.py adds it
under the key quality). -/
def qualityFlagsDict (q : QualityFlags) : PyDict :=
  [("gps_valid", PyVal.boolean q.gps_valid),
   ("imu_valid", PyVal.boolean q.imu_valid),
   ("mag_valid", PyVal.boolean q.mag_valid),
   ("baro_valid", PyVal.boolean q.baro_valid),
   ("temp_valid", PyVal.boolean q.temp_valid),
   ("overall_valid", PyVal.boolean q.overall_valid)]

/-- A complete session that reaches the late fallback: arm at wall clock 0,
boost to 6 m by t = 1.2 s, then a long silence until a packet at t = 20 s
descending at 2 m/s, far past the apogee window end (about 8.86 s). -/
def c4Trace : List DetInput :=
  [ ⟨1/10, some 3, some 1, some 1⟩,
    ⟨2/10, some 3, some 2, some 1⟩,
    ⟨3/10, some 3, some 3, some 1⟩,
    ⟨7/10, some 3, some 4, some 1⟩,
    ⟨8/10, some (1/10), some 5, some 30⟩,
    ⟨12/10, some (1/10), some 6, some 10⟩,
    ⟨20, some (1/10), some 5, some (-2)⟩ ]

/-- The state and events after running the late-fallback session. -/
def c4Run : DetectorState × List FlightEvent :=
  runDetector (armDetector 0 0).1 c4Trace

/-- A coasting state more than 2 s past its apogee window end, with the
altitude maximum on record at mission time 6 s. -/
def c4State : DetectorState :=
  { resetDetectionState 0 with
      currentPhase := FlightPhase.COAST,
      currentMissionTimeS := 20,
      apogeeWindowStartTime := some 1,
      apogeeWindowEndTime := some 10,
      maxAltitudeM := 100,
      maxAltitudeMissionTime := some 6 }

/-! ### The 15-state extended Kalman filter (kalman_filter.py)

The filter works over the reals; vectors and matrices are index
functions, numpy's @, .T and np.eye are the usual sum, transpose and
identity. -/

/-- A real vector of length n. -/
abbrev Vec (n : ℕ) := Fin n → ℝ

/-- A real m-by-n matrix. -/
abbrev Mat (m n : ℕ) := Fin m → Fin n → ℝ

/-- Matrix product (numpy @). -/
noncomputable def mMul {m n p : ℕ} (A : Mat m n) (B : Mat n p) : Mat m p :=
  fun i j => ∑ k, A i k * B k j

/-- Transpose (numpy .T). -/
def mT {m n : ℕ} (A : Mat m n) : Mat n m := fun i j => A j i

/-- Elementwise sum. -/
noncomputable def mAdd {m n : ℕ} (A B : Mat m n) : Mat m n := fun i j => A i j + B i j

/-- Elementwise difference. -/
noncomputable def mSub {m n : ℕ} (A B : Mat m n) : Mat m n := fun i j => A i j - B i j

/-- Scalar multiple. -/
noncomputable def mScale {m n : ℕ} (c : ℝ) (A : Mat m n) : Mat m n := fun i j => c * A i j

/-- Identity matrix (np.eye). -/
def idMat (n : ℕ) : Mat n n := fun i j => if i = j then 1 else 0

/-- Determinant of a 3x3 matrix by cofactor expansion. -/
noncomputable def det3 (A : Mat 3 3) : ℝ :=
  A 0 0 * (A 1 1 * A 2 2 - A 1 2 * A 2 1)
  - A 0 1 * (A 1 0 * A 2 2 - A 1 2 * A 2 0)
  + A 0 2 * (A 1 0 * A 2 1 - A 1 1 * A 2 0)

/-- Inverse of a 3x3 matrix by the adjugate formula; np.linalg.inv raises
LinAlgError exactly on singular input, which the updates model by testing
the determinant against zero before using this. -/
noncomputable def inv3 (A : Mat 3 3) : Mat 3 3 :=
  let d := det3 A
  ![![ (A 1 1 * A 2 2 - A 1 2 * A 2 1) / d,
       -(A 0 1 * A 2 2 - A 0 2 * A 2 1) / d,
       (A 0 1 * A 1 2 - A 0 2 * A 1 1) / d],
    ![ -(A 1 0 * A 2 2 - A 1 2 * A 2 0) / d,
       (A 0 0 * A 2 2 - A 0 2 * A 2 0) / d,
       -(A 0 0 * A 1 2 - A 0 2 * A 1 0) / d],
    ![ (A 1 0 * A 2 1 - A 1 1 * A 2 0) / d,
       -(A 0 0 * A 2 1 - A 0 1 * A 2 0) / d,
       (A 0 0 * A 1 1 - A 0 1 * A 1 0) / d]]

/-- ExtendedKalmanFilter._quaternion_multiply. -/
noncomputable def quatMul (q1 q2 : Vec 4) : Vec 4 :=
  ![q1 0 * q2 0 - q1 1 * q2 1 - q1 2 * q2 2 - q1 3 * q2 3,
    q1 0 * q2 1 + q1 1 * q2 0 + q1 2 * q2 3 - q1 3 * q2 2,
    q1 0 * q2 2 - q1 1 * q2 3 + q1 2 * q2 0 + q1 3 * q2 1,
    q1 0 * q2 3 + q1 1 * q2 2 - q1 2 * q2 1 + q1 3 * q2 0]

/-- ExtendedKalmanFilter._quaternion_conjugate. -/
noncomputable def quatConj (q : Vec 4) : Vec 4 := ![q 0, -(q 1), -(q 2), -(q 3)]

/-- ExtendedKalmanFilter._rotate_vector. -/
noncomputable def rotateVector (v : Vec 3) (q : Vec 4) : Vec 3 :=
  let vq : Vec 4 := ![0, v 0, v 1, v 2]
  let r := quatMul (quatMul q vq) (quatConj q)
  ![r 1, r 2, r 3]

/-- The quaternion slice state[6:10]. -/
noncomputable def quatOf (st : Vec 15) : Vec 4 := fun i => st ⟨6 + (i : ℕ), by omega⟩

/-- Squared euclidean norm of a quaternion. -/
noncomputable def quatNormSq (q : Vec 4) : ℝ := q 0 ^ 2 + q 1 ^ 2 + q 2 ^ 2 + q 3 ^ 2

/-- np.linalg.norm of a quaternion. -/
noncomputable def quatNorm (q : Vec 4) : ℝ := Real.sqrt (quatNormSq q)

/-- Write a quaternion back into state[6:10]. -/
noncomputable def setQuat (st : Vec 15) (q : Vec 4) : Vec 15 := fun i =>
  if h : 6 ≤ (i : ℕ) ∧ (i : ℕ) < 10 then q ⟨(i : ℕ) - 6, by omega⟩ else st i

/-- state[6:10] /= np.linalg.norm(state[6:10]). -/
noncomputable def normalizeQuatState (st : Vec 15) : Vec 15 :=
  setQuat st (fun i => quatOf st i / quatNorm (quatOf st))

/-- The EKF object: the 15-entry state vector, the covariance, and the
last update wall-clock seconds. -/
structure EKF where
  state : Vec 15
  P : Mat 15 15
  lastUpdateTime : Option ℝ

/-- The diagonal of the initial covariance (10 m position, 5 m/s velocity,
0.1 quaternion, 0.01 gyro bias, 0.1 accel bias, 5 baro bias). -/
noncomputable def initPdiag : Vec 15 := fun i =>
  if (i : ℕ) < 3 then 10 else if (i : ℕ) < 6 then 5
  else if (i : ℕ) < 10 then 0.1 else if (i : ℕ) < 13 then 0.01
  else if (i : ℕ) = 13 then 0.1 else 5

/-- ExtendedKalmanFilter.__init__ with the default initial position. -/
noncomputable def initEKF : EKF :=
  { state := fun i => if (i : ℕ) = 6 then 1 else 0,
    P := fun i j => if i = j then initPdiag i else 0,
    lastUpdateTime := none }

/-- The diagonal of the process noise Q. -/
noncomputable def Qdiag : Vec 15 := fun i =>
  if (i : ℕ) < 3 then 0.1 else if (i : ℕ) < 6 then 1
  else if (i : ℕ) < 10 then 0.01 else if (i : ℕ) < 13 then 1e-6
  else if (i : ℕ) = 13 then 1e-4 else 1e-3

/-- The process noise matrix. -/
noncomputable def Qmat : Mat 15 15 := fun i j => if i = j then Qdiag i else 0

/-- GPS measurement noise R_gps = diag(5, 5, 10). -/
noncomputable def Rgps : Mat 3 3 := fun i j =>
  if i = j then (if (i : ℕ) < 2 then 5 else 10) else 0

/-- Accelerometer measurement noise R_accel = 0.05 I. -/
noncomputable def Raccel : Mat 3 3 := fun i j => if i = j then 0.05 else 0

/-- Magnetometer measurement noise R_mag = 0.5 I. -/
noncomputable def Rmag : Mat 3 3 := fun i j => if i = j then 0.5 else 0

/-- Earth magnetic field reference in NED, microtesla. -/
noncomputable def magRefNed : Vec 3 := ![20, -30, 40]

/-- Gravity vector in NED. -/
noncomputable def gravity : Vec 3 := ![0, 0, 9.81]

/-- ExtendedKalmanFilter.predict: position advances by velocity * dt, the
covariance by F P F^T + Q dt, then symmetrization. -/
noncomputable def Fmat (dt : ℝ) : Mat 15 15 := fun i j =>
  if i = j then 1 else if (i : ℕ) < 3 ∧ (j : ℕ) = (i : ℕ) + 3 then dt else 0

noncomputable def predict (e : EKF) (dt : ℝ) : EKF :=
  let st : Vec 15 := fun i =>
    if h : (i : ℕ) < 3 then e.state i + e.state ⟨(i : ℕ) + 3, by omega⟩ * dt
    else e.state i
  let P1 := mAdd (mMul (mMul (Fmat dt) e.P) (mT (Fmat dt))) (mScale dt Qmat)
  { e with state := st, P := fun i j => (P1 i j + P1 j i) / 2 }

/-- ExtendedKalmanFilter._update_quaternion: integrate the gyro rate into
the quaternion and renormalize in place. -/
noncomputable def updateQuaternion (st : Vec 15) (gyro : Vec 3) (dt : ℝ) : Vec 15 :=
  let q := quatOf st
  let omegaQ : Vec 4 := ![0, gyro 0, gyro 1, gyro 2]
  let qdot : Vec 4 := fun i => 0.5 * quatMul q omegaQ i
  normalizeQuatState (setQuat st (fun i => q i + qdot i * dt))

/-- The GPS observation matrix: identity on the position block. -/
def Hgps : Mat 3 15 := fun i j => if (j : ℕ) = (i : ℕ) then 1 else 0

/-- The IMU observation matrix: only the accel-z bias entry H[2][13] = 1. -/
def Himu : Mat 3 15 := fun i j => if (i : ℕ) = 2 ∧ (j : ℕ) = 13 then 1 else 0

/-- The magnetometer observation matrix: identity on state[6:9]. -/
def Hmag : Mat 3 15 := fun i j => if (j : ℕ) = 6 + (i : ℕ) then 1 else 0

/-- The barometer observation row: -1 on down position, 1 on baro bias. -/
def Hbaro : Vec 15 := fun j =>
  if (j : ℕ) = 2 then -1 else if (j : ℕ) = 14 then 1 else 0

/-- Innovation covariance of the IMU update. -/
noncomputable def imuS (e : EKF) : Mat 3 3 :=
  mAdd (mMul (mMul Himu e.P) (mT Himu)) Raccel

/-- Innovation covariance of the GPS update. -/
noncomputable def gpsS (e : EKF) : Mat 3 3 :=
  mAdd (mMul (mMul Hgps e.P) (mT Hgps)) Rgps

/-- Innovation covariance of the magnetometer update. -/
noncomputable def magS (e : EKF) : Mat 3 3 :=
  mAdd (mMul (mMul Hmag e.P) (mT Hmag)) Rmag

/-- Innovation variance of the barometer update (scalar). -/
noncomputable def baroS (e : EKF) : ℝ :=
  (∑ i, ∑ j, Hbaro i * e.P i j * Hbaro j) + 2

/-- ExtendedKalmanFilter._gps_to_ned: geodetic position to local NED
around the Starbase reference, through ECEF differences. The source reuses
the prime-vertical radius N computed at the current latitude for both
points. -/
noncomputable def radiansR (x : ℝ) : ℝ := x * Real.pi / 180

noncomputable def gpsToNed (lat lon alt : ℝ) : Vec 3 :=
  let refLatRad := radiansR 25.997222
  let refLonRad := radiansR (-97.155556)
  let refAlt : ℝ := 8
  let latRad := radiansR lat
  let lonRad := radiansR lon
  let a : ℝ := 6378137
  let f : ℝ := 1 / 298.257223563
  let eSq := f * (2 - f)
  let N := a / Real.sqrt (1 - eSq * Real.sin latRad ^ 2)
  let xRef := (N + refAlt) * Real.cos refLatRad * Real.cos refLonRad
  let yRef := (N + refAlt) * Real.cos refLatRad * Real.sin refLonRad
  let zRef := (N * (1 - eSq) + refAlt) * Real.sin refLatRad
  let xCurr := (N + alt) * Real.cos latRad * Real.cos lonRad
  let yCurr := (N + alt) * Real.cos latRad * Real.sin lonRad
  let zCurr := (N * (1 - eSq) + alt) * Real.sin latRad
  let dx := xCurr - xRef
  let dy := yCurr - yRef
  let dz := zCurr - zRef
  let sLat := Real.sin refLatRad
  let cLat := Real.cos refLatRad
  let sLon := Real.sin refLonRad
  let cLon := Real.cos refLonRad
  ![-(sLat * cLon) * dx + -(sLat * sLon) * dy + cLat * dz,
    -sLon * dx + cLon * dy + 0 * dz,
    -(cLat * cLon) * dx + -(cLat * sLon) * dy + -sLat * dz]

/-- ExtendedKalmanFilter.update_gps; on a singular innovation covariance
(np.linalg.inv raising LinAlgError) the update returns with no change. -/
noncomputable def updateGps (e : EKF) (lat lon alt : ℝ) : EKF :=
  let ned := gpsToNed lat lon alt
  let y : Vec 3 := fun i => ned i - e.state ⟨(i : ℕ), by omega⟩
  if det3 (gpsS e) = 0 then e
  else
    let K : Mat 15 3 := mMul (mMul e.P (mT Hgps)) (inv3 (gpsS e))
    { e with
      state := fun i => e.state i + ∑ j, K i j * y j,
      P := mMul (mSub (idMat 15) (mMul K Hgps)) e.P }

/-- ExtendedKalmanFilter.update_baro; skipped entirely when the scalar
innovation variance is at most 1e-9. -/
noncomputable def updateBaro (e : EKF) (alt : ℝ) : EKF :=
  let y := alt - (-(e.state 2) + e.state 14)
  if baroS e ≤ 1e-9 then e
  else
    let K : Vec 15 := fun i => (∑ j, e.P i j * Hbaro j) / baroS e
    { e with
      state := fun i => e.state i + K i * y,
      P := mMul (mSub (idMat 15) (fun i j => K i * Hbaro j)) e.P }

/-- ExtendedKalmanFilter.update_mag up to (and excluding) the final
quaternion renormalization: the state after adding K @ y. -/
noncomputable def updateMagPre (e : EKF) (mag : Vec 3) : Vec 15 :=
  let expected := rotateVector magRefNed (quatOf e.state)
  let y : Vec 3 := fun i => mag i - expected i
  let K : Mat 15 3 := mMul (mMul e.P (mT Hmag)) (inv3 (magS e))
  fun i => e.state i + ∑ j, K i j * y j

/-- ExtendedKalmanFilter.update_mag: K @ y on the whole state, covariance
update, then quaternion renormalization; a singular innovation covariance
skips the update. -/
noncomputable def updateMag (e : EKF) (mag : Vec 3) : EKF :=
  if det3 (magS e) = 0 then e
  else
    let K : Mat 15 3 := mMul (mMul e.P (mT Hmag)) (inv3 (magS e))
    { e with
      state := normalizeQuatState (updateMagPre e mag),
      P := mMul (mSub (idMat 15) (mMul K Hmag)) e.P }

/-- ExtendedKalmanFilter.update_imu before the measurement update: bias
correction, quaternion integration, and the velocity advance by the
rotated specific force minus gravity. These in-place mutations persist
even when the measurement update is later skipped. -/
noncomputable def updateImuMid (e : EKF) (accel gyro : Vec 3) (dt : ℝ) : Vec 15 :=
  let gyroC : Vec 3 := fun i => gyro i - e.state ⟨10 + (i : ℕ), by omega⟩
  let accelC : Vec 3 := fun i => if (i : ℕ) = 2 then accel i - e.state 13 else accel i
  let st1 := updateQuaternion e.state gyroC dt
  let accelNed := rotateVector accelC (quatOf st1)
  fun i =>
    if h : 3 ≤ (i : ℕ) ∧ (i : ℕ) < 6 then
      st1 i + (accelNed ⟨(i : ℕ) - 3, by omega⟩ - gravity ⟨(i : ℕ) - 3, by omega⟩) * dt
    else st1 i

/-- The IMU innovation: measured acceleration minus gravity rotated into
the body frame plus the z bias. -/
noncomputable def imuInnov (e : EKF) (accel gyro : Vec 3) (dt : ℝ) : Vec 3 :=
  let st2 := updateImuMid e accel gyro dt
  let gBody := rotateVector gravity (quatConj (quatOf st2))
  fun i => accel i - (if (i : ℕ) = 2 then gBody i + st2 13 else gBody i)

/-- ExtendedKalmanFilter.update_imu up to (and excluding) the final
quaternion renormalization: the mid state after adding K @ y. -/
noncomputable def updateImuPre (e : EKF) (accel gyro : Vec 3) (dt : ℝ) : Vec 15 :=
  let st2 := updateImuMid e accel gyro dt
  let y := imuInnov e accel gyro dt
  let K : Mat 15 3 := mMul (mMul e.P (mT Himu)) (inv3 (imuS e))
  fun i => st2 i + ∑ j, K i j * y j

/-- ExtendedKalmanFilter.update_imu; a singular innovation covariance
aborts after the in-place quaternion and velocity mutations. -/
noncomputable def updateImu (e : EKF) (accel gyro : Vec 3) (dt : ℝ) : EKF :=
  if det3 (imuS e) = 0 then { e with state := updateImuMid e accel gyro dt }
  else
    let K : Mat 15 3 := mMul (mMul e.P (mT Himu)) (inv3 (imuS e))
    { e with
      state := normalizeQuatState (updateImuPre e accel gyro dt),
      P := mMul (mSub (idMat 15) (mMul K Himu)) e.P }

/-- SensorMeasurement: the optional sensor readings of one packet. -/
structure Measurement where
  accel : Option (Vec 3) := none
  gyro : Option (Vec 3) := none
  gpsPos : Option (Vec 3) := none
  baroAlt : Option ℝ := none
  mag : Option (Vec 3) := none

/-- The body of ExtendedKalmanFilter.process_measurement once the
positive-dt guard has passed: predict, then the conditional IMU, GPS,
barometer and magnetometer updates in order. -/
noncomputable def processMeasurementRun (e : EKF) (m : Measurement) (dt : ℝ) : EKF :=
  let e1 := predict e dt
  let e2 := match m.accel, m.gyro with
    | some a, some g => updateImu e1 a g dt
    | _, _ => e1
  let e3 := match m.gpsPos with
    | some gp =>
        if -90 ≤ gp 0 ∧ gp 0 ≤ 90 ∧ -180 ≤ gp 1 ∧ gp 1 ≤ 180 then
          updateGps e2 (gp 0) (gp 1) (gp 2)
        else e2
    | none => e2
  let e4 := match m.baroAlt with
    | some b => updateBaro e3 b
    | none => e3
  match m.mag with
  | some mg => updateMag e4 mg
  | none => e4

/-- ExtendedKalmanFilter.process_measurement: skip everything when dt is
not positive, otherwise run the update chain. -/
noncomputable def processMeasurement (e : EKF) (m : Measurement) (dt : ℝ) : EKF :=
  if dt ≤ 0 then e else processMeasurementRun e m dt

/-- The magnetometer-free update chain, for comparison: identical to
processMeasurementRun except that it has no magnetometer stage at all. -/
noncomputable def processMeasurementRunNoMag (e : EKF) (m : Measurement) (dt : ℝ) : EKF :=
  let e1 := predict e dt
  let e2 := match m.accel, m.gyro with
    | some a, some g => updateImu e1 a g dt
    | _, _ => e1
  let e3 := match m.gpsPos with
    | some gp =>
        if -90 ≤ gp 0 ∧ gp 0 ≤ 90 ∧ -180 ≤ gp 1 ∧ gp 1 ≤ 180 then
          updateGps e2 (gp 0) (gp 1) (gp 2)
        else e2
    | none => e2
  match m.baroAlt with
  | some b => updateBaro e3 b
  | none => e3

/-- The magnetometer-free process_measurement, for comparison. -/
noncomputable def processMeasurementNoMag (e : EKF) (m : Measurement) (dt : ℝ) : EKF :=
  if dt ≤ 0 then e else processMeasurementRunNoMag e m dt

/-- Numeric dict entry, when present and numeric. -/
noncomputable def getNum (d : PyDict) (k : String) : Option ℝ :=
  match d.lookup k with
  | some (PyVal.num x) => some x
  | _ => none

/-- telemetry.get(\'quality\', {}).get(k, False) for a boolean flag. -/
def getQualityBool (d : PyDict) (k : String) : Bool :=
  match d.lookup "quality" with
  | some (PyVal.dict q) =>
      match q.lookup k with
      | some (PyVal.boolean b) => b
      | _ => false
  | _ => false

/-- The measurement built from a telemetry dict by
ExtendedKalmanFilter.process_telemetry lines 455-479: each sensor is
attached exactly when all of its keys are present (GPS also requires the
quality gps_valid flag); gyro rates are converted to radians. -/
noncomputable def buildMeasurement (d : PyDict) : Measurement :=
  { accel :=
      if hasKey d "accel_x_mps2" && hasKey d "accel_y_mps2" && hasKey d "accel_z_mps2" then
        some ![getNumD d "accel_x_mps2" 0, getNumD d "accel_y_mps2" 0,
               getNumD d "accel_z_mps2" 0]
      else none,
    gyro :=
      if hasKey d "gyro_x_dps" && hasKey d "gyro_y_dps" && hasKey d "gyro_z_dps" then
        some ![radiansR (getNumD d "gyro_x_dps" 0), radiansR (getNumD d "gyro_y_dps" 0),
               radiansR (getNumD d "gyro_z_dps" 0)]
      else none,
    gpsPos :=
      if getQualityBool d "gps_valid" && hasKey d "latitude_deg" &&
          hasKey d "longitude_deg" && hasKey d "altitude_m" then
        some ![getNumD d "latitude_deg" 0, getNumD d "longitude_deg" 0,
               getNumD d "altitude_m" 0]
      else none,
    baroAlt := if hasKey d "altitude_m" then some (getNumD d "altitude_m" 0) else none,
    mag :=
      if hasKey d "mag_x_uT" && hasKey d "mag_y_uT" && hasKey d "mag_z_uT" then
        some ![getNumD d "mag_x_uT" 0, getNumD d "mag_y_uT" 0, getNumD d "mag_z_uT" 0]
      else none }

/-- ExtendedKalmanFilter.process_telemetry, given the epoch seconds t of
the packet timestamp: on the first packet initialize from GPS when valid
and take dt = 0.1; afterwards dt is the timestamp difference; a
non-positive or over-one-second dt is replaced by 0.1; the last update
time always becomes t; the measurement chain runs only when both IMU
sensors are present. -/
noncomputable def ekfProcessTelemetry (e : EKF) (t : ℝ) (d : PyDict) : EKF :=
  let ned0 := gpsToNed (getNumD d "latitude_deg" 0) (getNumD d "longitude_deg" 0)
    (getNumD d "altitude_m" 0)
  let e0 :=
    if e.lastUpdateTime.isNone ∧ getQualityBool d "gps_valid" = true ∧
        hasKey d "latitude_deg" = true ∧ hasKey d "longitude_deg" = true ∧
        hasKey d "altitude_m" = true then
      { e with state := fun i =>
          if h : (i : ℕ) < 3 then ned0 ⟨(i : ℕ), h⟩ else e.state i }
    else e
  let dt0 := match e.lastUpdateTime with
    | none => (0.1 : ℝ)
    | some l => t - l
  let dt := if dt0 ≤ 0 ∨ 1 < dt0 then (0.1 : ℝ) else dt0
  let m := buildMeasurement d
  let e1 := { e0 with lastUpdateTime := some t }
  if m.accel ≠ none ∧ m.gyro ≠ none then processMeasurement e1 m dt else e1

/-- A packet dict carrying both IMU sensors, as the parser emits them. -/
noncomputable def c7dict : PyDict :=
  [("accel_x_mps2", PyVal.num 0), ("accel_y_mps2", PyVal.num 0),
   ("accel_z_mps2", PyVal.num 9.81), ("gyro_x_dps", PyVal.num 0),
   ("gyro_y_dps", PyVal.num 0), ("gyro_z_dps", PyVal.num 0)]

/-- An EKF whose previous update happened at epoch second 100. -/
noncomputable def c7ekf : EKF := { initEKF with lastUpdateTime := some 100 }

/-- The dict parsed from a concrete legal ARMED packet. -/
noncomputable def c10dict : PyDict :=
  armedDict 0 ⟨2025, 5, 27, 11, 43, 46⟩ (25/2) 1 2 3 4 5 6 7 8 9 100 200 8 25

/-- An EKF state with unit quaternion and a covariance that couples the
down position with the quaternion scalar: P is the identity except
P[2][6] = P[6][2] = 1/2. -/
noncomputable def c1Ekf : EKF :=
  { state := fun i => if (i : ℕ) = 6 then 1 else 0,
    P := fun i j =>
      if i = j then 1
      else if ((i : ℕ) = 2 ∧ (j : ℕ) = 6) ∨ ((i : ℕ) = 6 ∧ (j : ℕ) = 2) then 1 / 2
      else 0,
    lastUpdateTime := none }

theorem ratOfScientific_eq (m e : ℕ) :
    (OfScientific.ofScientific m true e : ℚ) = (m : ℚ) / (10 : ℚ) ^ e := rfl

theorem splitOnChar_ne_nil (sep : Char) (s : List Char) : splitOnChar sep s ≠ [] := by
  induction s with
  | nil => simp [splitOnChar]
  | cons c rest ih =>
    simp only [splitOnChar]
    split
    · simp
    · cases h : splitOnChar sep rest with
      | nil => simp
      | cons f fs => simp

theorem splitOnChar_no_sep (sep : Char) (f : List Char) (h : sep ∉ f) :
    splitOnChar sep f = [f] := by
  induction f with
  | nil => rfl
  | cons c rest ih =>
    simp only [List.mem_cons, not_or] at h
    have hc : ¬ (c == sep) = true := by
      simp only [beq_iff_eq]
      exact fun hcc => h.1 hcc.symm
    simp only [splitOnChar]
    rw [if_neg hc, ih h.2]

theorem splitOnChar_append_sep (sep : Char) (f r : List Char) (h : sep ∉ f) :
    splitOnChar sep (f ++ sep :: r) = f :: splitOnChar sep r := by
  induction f with
  | nil => simp [splitOnChar]
  | cons c rest ih =>
    simp only [List.mem_cons, not_or] at h
    have hc : ¬ (c == sep) = true := by
      simp only [beq_iff_eq]
      exact fun hcc => h.1 hcc.symm
    simp only [List.cons_append, splitOnChar, List.append_eq]
    rw [if_neg hc, ih h.2]

theorem splitOnChar_joinWith (sep : Char) (fs : List (List Char)) (hne : fs ≠ [])
    (h : ∀ f ∈ fs, sep ∉ f) : splitOnChar sep (joinWith sep fs) = fs := by
  induction fs with
  | nil => exact absurd rfl hne
  | cons f rest ih =>
    cases rest with
    | nil => exact splitOnChar_no_sep sep f (h f (by simp))
    | cons g gs =>
      have hj : joinWith sep (f :: g :: gs) = f ++ sep :: joinWith sep (g :: gs) := rfl
      rw [hj, splitOnChar_append_sep sep f _ (h f (by simp))]
      rw [ih (by simp) (fun x hx => h x (by simp [hx]))]

theorem digitsVal_cons (c : Char) (ds : List Char) :
    digitsVal (c :: ds) = digitVal c * 10 ^ ds.length + digitsVal ds := by
  have key : ∀ (ds : List Char) (a : ℕ),
      ds.foldl (fun a c => 10 * a + digitVal c) a = a * 10 ^ ds.length + digitsVal ds := by
    intro ds
    induction ds with
    | nil => intro a; simp [digitsVal]
    | cons d rest ih =>
      intro a
      simp only [List.foldl_cons, digitsVal] at *
      rw [ih, ih (10 * 0 + digitVal d)]
      ring_nf
      simp [pow_succ]
      ring
  simp only [digitsVal, List.foldl_cons]
  rw [key ds (10 * 0 + digitVal c)]
  ring_nf
  simp [digitsVal]

theorem digitsVal_append_singleton (ds : List Char) (c : Char) :
    digitsVal (ds ++ [c]) = 10 * digitsVal ds + digitVal c := by
  simp [digitsVal, List.foldl_append]

theorem digitVal_digitChar (n : ℕ) (h : n < 10) : digitVal (digitChar n) = n := by
  interval_cases n <;> rfl

theorem digitsVal_natDigitsAux (fuel n : ℕ) (h : n ≤ fuel) :
    digitsVal (natDigitsAux fuel n) = n := by
  induction fuel generalizing n with
  | zero => interval_cases n; rfl
  | succ f ih =>
    simp only [natDigitsAux]
    by_cases hn : n = 0
    · simp [hn, digitsVal]
    · rw [if_neg hn, digitsVal_append_singleton, ih (n / 10) (by omega),
        digitVal_digitChar _ (Nat.mod_lt _ (by norm_num))]
      omega

theorem digitsVal_natToDigits (n : ℕ) : digitsVal (natToDigits n) = n := by
  by_cases h : n = 0
  · simp [h, natToDigits, digitsVal, digitVal]
  · simp only [natToDigits, if_neg h]
    exact digitsVal_natDigitsAux n n le_rfl

theorem digitChar_isDigit (n : ℕ) (h : n < 10) : isDigitChar (digitChar n) = true := by
  interval_cases n <;> rfl

theorem natDigitsAux_all_digit (fuel n : ℕ) :
    ∀ c ∈ natDigitsAux fuel n, isDigitChar c = true := by
  induction fuel generalizing n with
  | zero => simp [natDigitsAux]
  | succ f ih =>
    intro c hc
    simp only [natDigitsAux] at hc
    by_cases hn : n = 0
    · simp [hn] at hc
    · rw [if_neg hn] at hc
      rcases List.mem_append.mp hc with h1 | h2
      · exact ih _ c h1
      · simp only [List.mem_singleton] at h2
        subst h2
        exact digitChar_isDigit _ (Nat.mod_lt _ (by norm_num))

theorem natToDigits_all_digit (n : ℕ) : ∀ c ∈ natToDigits n, isDigitChar c = true := by
  by_cases h : n = 0
  · subst h
    intro c hc
    have hc0 : c = '0' := by simpa [natToDigits] using hc
    subst hc0
    rfl
  · simp only [natToDigits, if_neg h]
    exact natDigitsAux_all_digit n n

theorem natToDigits_ne_nil (n : ℕ) : natToDigits n ≠ [] := by
  by_cases h : n = 0
  · simp [h, natToDigits]
  · simp only [natToDigits, if_neg h]
    rcases n with _ | m
    · simp at h
    · simp only [natDigitsAux]
      rw [if_neg h]
      simp

theorem isDigitChar_not_space (c : Char) (h : isDigitChar c = true) :
    pyIsSpace c = false := by
  simp only [isDigitChar, Bool.and_eq_true, decide_eq_true_eq] at h
  simp only [pyIsSpace, Bool.or_eq_false_iff, beq_eq_false_iff_ne]
  refine ⟨⟨⟨⟨⟨?_, ?_⟩, ?_⟩, ?_⟩, ?_⟩, ?_⟩ <;>
    exact fun he => by
      subst he
      exact absurd h.1 (by decide)

theorem pyStrip_eq_self (s : List Char) (h : ∀ c ∈ s, pyIsSpace c = false) :
    pyStrip s = s := by
  have drop : ∀ (t : List Char), (∀ c ∈ t, pyIsSpace c = false) →
      t.dropWhile pyIsSpace = t := by
    intro t ht
    cases t with
    | nil => rfl
    | cons c rest => simp [List.dropWhile_cons, ht c (by simp)]
  rw [pyStrip, drop s h, drop _ (fun c hc => h c (List.mem_reverse.mp hc)),
    List.reverse_reverse]

theorem parseDigits_natToDigits (n : ℕ) : parseDigits (natToDigits n) = some n := by
  rw [parseDigits, if_pos ⟨natToDigits_ne_nil n, List.all_eq_true.mpr (natToDigits_all_digit n)⟩,
    digitsVal_natToDigits]

theorem natToDigits_head_digit (n : ℕ) :
    ∃ c cs, natToDigits n = c :: cs ∧ isDigitChar c = true := by
  cases h : natToDigits n with
  | nil => exact absurd h (natToDigits_ne_nil n)
  | cons c cs =>
    exact ⟨c, cs, rfl, natToDigits_all_digit n c (by rw [h]; simp)⟩

theorem parseInt_intToChars (z : ℤ) : parseInt (intToChars z) = some z := by
  obtain ⟨c, cs, hd, hdig⟩ := natToDigits_head_digit z.natAbs
  have hdigs : ∀ x ∈ natToDigits z.natAbs, pyIsSpace x = false :=
    fun x hx => isDigitChar_not_space x (natToDigits_all_digit _ x hx)
  have hcnat : 48 ≤ c.toNat ∧ c.toNat ≤ 57 := by
    simpa [isDigitChar] using hdig
  by_cases hz : z < 0
  · have hstrip : pyStrip (intToChars z) = '-' :: natToDigits z.natAbs := by
      rw [intToChars, if_pos hz]
      exact pyStrip_eq_self _ (by
        intro x hx
        rcases List.mem_cons.mp hx with h1 | h2
        · subst h1; rfl
        · exact hdigs x h2)
    simp only [parseInt, hstrip, show (('-') == '+') = false from rfl,
      show (('-') == '-') = true from rfl, Bool.false_eq_true, if_false, if_true,
      parseDigits_natToDigits, Option.map_some', Option.some.injEq, Int.ofNat_eq_natCast]
    omega
  · have hstrip : pyStrip (intToChars z) = natToDigits z.natAbs := by
      rw [intToChars, if_neg hz]
      exact pyStrip_eq_self _ hdigs
    have hplus : (c == '+') = false := by
      refine beq_eq_false_iff_ne.mpr (fun he => ?_)
      have hce : c.toNat = 43 := by rw [he]; rfl
      omega
    have hminus : (c == '-') = false := by
      refine beq_eq_false_iff_ne.mpr (fun he => ?_)
      have hce : c.toNat = 45 := by rw [he]; rfl
      omega
    simp only [parseInt, hstrip, hd, hplus, hminus, Bool.false_eq_true, if_false]
    rw [← hd, parseDigits_natToDigits]
    simp only [Option.map_some', Option.some.injEq, Int.ofNat_eq_natCast]
    omega

theorem digitsVal_replicate_zero (j : ℕ) (ds : List Char) :
    digitsVal (List.replicate j ('0') ++ ds) = digitsVal ds := by
  induction j with
  | zero => simp
  | succ i ih =>
    have : List.replicate (i + 1) ('0') ++ ds = '0' :: (List.replicate i ('0') ++ ds) := by
      simp [List.replicate_succ]
    rw [this, digitsVal_cons, ih]
    simp [digitVal]

theorem padNat_val (k n : ℕ) : digitsVal (padNat k n) = n := by
  rw [padNat, digitsVal_replicate_zero, digitsVal_natToDigits]

theorem padNat_all_digit (k n : ℕ) : ∀ c ∈ padNat k n, isDigitChar c = true := by
  intro c hc
  rcases List.mem_append.mp hc with h1 | h2
  · have : c = '0' := by simpa using (List.eq_of_mem_replicate h1)
    subst this
    rfl
  · exact natToDigits_all_digit n c h2

theorem natDigitsAux_length_le (fuel n k : ℕ) (hk : 1 ≤ k) (h : n < 10 ^ k) :
    (natDigitsAux fuel n).length ≤ k := by
  induction fuel generalizing n k with
  | zero => simp [natDigitsAux]
  | succ f ih =>
    simp only [natDigitsAux]
    by_cases hn : n = 0
    · simp [hn]
    · rw [if_neg hn]
      rcases k with _ | j
      · omega
      · rcases Nat.eq_zero_or_pos j with hj | hj
        · subst hj
          have hn10 : n < 10 := by simpa using h
          have : n / 10 = 0 := Nat.div_eq_of_lt hn10
          rw [this]
          simp [natDigitsAux]
          cases f <;> simp [natDigitsAux]
        · have hdiv : n / 10 < 10 ^ j := by
            rw [Nat.div_lt_iff_lt_mul (by norm_num)]
            calc n < 10 ^ (j + 1) := h
            _ = 10 ^ j * 10 := by ring
          have := ih (n / 10) j hj hdiv
          simp only [List.length_append, List.length_singleton]
          omega

theorem natToDigits_length_le (n k : ℕ) (hk : 1 ≤ k) (h : n < 10 ^ k) :
    (natToDigits n).length ≤ k := by
  by_cases hn : n = 0
  · simp [hn, natToDigits]
    omega
  · simp only [natToDigits, if_neg hn]
    exact natDigitsAux_length_le n n k hk h

theorem padNat_length (k n : ℕ) (h : (natToDigits n).length ≤ k) :
    (padNat k n).length = k := by
  simp only [padNat, List.length_append, List.length_replicate]
  omega

theorem takeWhile_append_false (p : Char → Bool) (xs : List Char) (y : Char)
    (ys : List Char) (hxs : ∀ c ∈ xs, p c = true) (hy : p y = false) :
    (xs ++ y :: ys).takeWhile p = xs ∧ (xs ++ y :: ys).dropWhile p = y :: ys := by
  induction xs with
  | nil => simp [List.takeWhile_cons, List.dropWhile_cons, hy]
  | cons c rest ih =>
    have hc : p c = true := hxs c (by simp)
    have ihr := ih (fun x hx => hxs x (by simp [hx]))
    simp only [List.cons_append, List.takeWhile_cons, List.dropWhile_cons, hc, if_true]
    exact ⟨by rw [ihr.1], by rw [ihr.2]⟩

theorem parseUnsignedFloat_fixed (q r : ℕ) (hr : r < 100) :
    parseUnsignedFloat (natToDigits q ++ '.' :: padNat 2 r) =
      some ((q : ℚ) + (r : ℚ) / 100) := by
  have hsplit := takeWhile_append_false isDigitChar (natToDigits q) ('.') (padNat 2 r)
    (natToDigits_all_digit q) rfl
  have hlen : (padNat 2 r).length = 2 :=
    padNat_length 2 r (natToDigits_length_le r 2 (by norm_num) (by omega))
  simp only [parseUnsignedFloat, hsplit.1, hsplit.2]
  rw [if_pos]
  · rw [digitsVal_natToDigits, padNat_val, hlen]
    norm_num
  · simp only [Bool.and_eq_true, Bool.or_eq_true, Bool.not_eq_true']
    refine ⟨⟨rfl, List.all_eq_true.mpr (padNat_all_digit 2 r)⟩, Or.inl ?_⟩
    cases he : (natToDigits q).isEmpty
    · rfl
    · exact absurd (List.isEmpty_iff.mp he) (natToDigits_ne_nil q)

theorem centiToChars_no_space (a : ℤ) :
    ∀ c ∈ centiToChars a, pyIsSpace c = false := by
  intro c hc
  simp only [centiToChars, List.mem_append, List.mem_cons] at hc
  rcases hc with (h1 | h2) | h3 | h4
  · by_cases hz : a < 0
    · rw [if_pos hz] at h1
      rcases List.mem_singleton.mp h1 with rfl
      rfl
    · rw [if_neg hz] at h1
      simp at h1
  · exact isDigitChar_not_space c (natToDigits_all_digit _ c h2)
  · rcases h3 with rfl
    rfl
  · exact isDigitChar_not_space c (padNat_all_digit 2 _ c h4)

theorem parseFloat_centiToChars (a : ℤ) :
    parseFloat (centiToChars a) = some ((a : ℚ) / 100) := by
  have hval : ((a.natAbs / 100 : ℕ) : ℚ) + ((a.natAbs % 100 : ℕ) : ℚ) / 100 =
      ((a.natAbs : ℕ) : ℚ) / 100 := by
    have h100 : ((a.natAbs : ℚ)) = 100 * ((a.natAbs / 100 : ℕ) : ℚ) + ((a.natAbs % 100 : ℕ) : ℚ) := by
      norm_cast
      omega
    rw [h100]
    ring
  by_cases hz : a < 0
  · have hform : centiToChars a =
        '-' :: (natToDigits (a.natAbs / 100) ++ '.' :: padNat 2 (a.natAbs % 100)) := by
      simp [centiToChars, hz]
    have hstrip : pyStrip (centiToChars a) = centiToChars a :=
      pyStrip_eq_self _ (centiToChars_no_space a)
    rw [parseFloat]
    rw [hstrip, hform]
    simp only [show (('-') == '+') = false from rfl, show (('-') == '-') = true from rfl,
      Bool.false_eq_true, if_false, if_true,
      parseUnsignedFloat_fixed _ _ (Nat.mod_lt _ (by norm_num)), Option.map_some']
    rw [hval]
    congr 1
    have hna : ((a.natAbs : ℚ)) = -(a : ℚ) := by
      rw [Int.cast_natAbs, abs_of_neg hz]
      push_cast
      ring
    rw [hna]
    ring
  · have hform : centiToChars a =
        natToDigits (a.natAbs / 100) ++ '.' :: padNat 2 (a.natAbs % 100) := by
      simp [centiToChars, hz]
    have hstrip : pyStrip (centiToChars a) = centiToChars a :=
      pyStrip_eq_self _ (centiToChars_no_space a)
    obtain ⟨c, cs, hd, hdig⟩ := natToDigits_head_digit (a.natAbs / 100)
    have hcnat : 48 ≤ c.toNat ∧ c.toNat ≤ 57 := by
      simpa [isDigitChar] using hdig
    have hplus : (c == '+') = false := by
      refine beq_eq_false_iff_ne.mpr (fun he => ?_)
      have hce : c.toNat = 43 := by rw [he]; rfl
      omega
    have hminus : (c == '-') = false := by
      refine beq_eq_false_iff_ne.mpr (fun he => ?_)
      have hce : c.toNat = 45 := by rw [he]; rfl
      omega
    have hform2 : centiToChars a = c :: (cs ++ '.' :: padNat 2 (a.natAbs % 100)) := by
      rw [hform, hd]
      simp
    rw [parseFloat, hstrip, hform2]
    simp only [hplus, hminus, Bool.false_eq_true, if_false]
    have : c :: (cs ++ '.' :: padNat 2 (a.natAbs % 100)) =
        natToDigits (a.natAbs / 100) ++ '.' :: padNat 2 (a.natAbs % 100) := by
      rw [hd]
      simp
    rw [this, parseUnsignedFloat_fixed _ _ (Nat.mod_lt _ (by norm_num)), hval]
    congr 1
    have hna : ((a.natAbs : ℚ)) = (a : ℚ) := by
      rw [Int.cast_natAbs, abs_of_nonneg (not_lt.mp hz)]
    rw [hna]

theorem not_mem_of_all_digit (sep : Char) (hs : isDigitChar sep = false)
    (xs : List Char) (hx : ∀ c ∈ xs, isDigitChar c = true) : sep ∉ xs := by
  intro hmem
  rw [hx sep hmem] at hs
  exact Bool.noConfusion hs

theorem parseFixedNat_padNat (k maxLen n : ℕ) (h1 : 1 ≤ k) (h2 : k ≤ maxLen)
    (h3 : n < 10 ^ k) : parseFixedNat maxLen (padNat k n) = some n := by
  have hlen : (padNat k n).length = k := padNat_length k n (natToDigits_length_le n k h1 h3)
  rw [parseFixedNat, if_pos]
  · rw [padNat_val]
  · exact ⟨by omega, by omega, List.all_eq_true.mpr (padNat_all_digit k n)⟩

theorem parseDateMDY_format (t : DateTimeVal) (hm : t.month < 100) (hd : t.day < 100)
    (hy : t.year < 10000) :
    parseDateMDY (formatDateMDY t) = some (t.month, t.day, t.year) := by
  have hsplit : splitOnChar ('/') (formatDateMDY t) =
      [padNat 2 t.month, padNat 2 t.day, padNat 4 t.year] := by
    rw [formatDateMDY,
      splitOnChar_append_sep _ _ _ (not_mem_of_all_digit ('/') (by decide) _ (padNat_all_digit 2 t.month)),
      splitOnChar_append_sep _ _ _ (not_mem_of_all_digit ('/') (by decide) _ (padNat_all_digit 2 t.day)),
      splitOnChar_no_sep _ _ (not_mem_of_all_digit ('/') (by decide) _ (padNat_all_digit 4 t.year))]
  simp only [parseDateMDY, hsplit,
    parseFixedNat_padNat 2 2 t.month (by norm_num) le_rfl (by omega),
    parseFixedNat_padNat 2 2 t.day (by norm_num) le_rfl (by omega),
    parseFixedNat_padNat 4 4 t.year (by norm_num) le_rfl (by omega)]

theorem parseTimeHMS_format (t : DateTimeVal) (hh : t.hour < 100) (hm : t.minute < 100)
    (hs : t.second < 100) :
    parseTimeHMS (formatTimeHMS t) = some (t.hour, t.minute, t.second) := by
  have hsplit : splitOnChar (':') (formatTimeHMS t) =
      [padNat 2 t.hour, padNat 2 t.minute, padNat 2 t.second] := by
    rw [formatTimeHMS,
      splitOnChar_append_sep _ _ _ (not_mem_of_all_digit (':') (by decide) _ (padNat_all_digit 2 t.hour)),
      splitOnChar_append_sep _ _ _ (not_mem_of_all_digit (':') (by decide) _ (padNat_all_digit 2 t.minute)),
      splitOnChar_no_sep _ _ (not_mem_of_all_digit (':') (by decide) _ (padNat_all_digit 2 t.second))]
  simp only [parseTimeHMS, hsplit,
    parseFixedNat_padNat 2 2 t.hour (by norm_num) le_rfl (by omega),
    parseFixedNat_padNat 2 2 t.minute (by norm_num) le_rfl (by omega),
    parseFixedNat_padNat 2 2 t.second (by norm_num) le_rfl (by omega)]

theorem parseTimestampFields_format (t : DateTimeVal) (hv : validDateTime t = true) :
    parseTimestampFields (formatDateMDY t) (formatTimeHMS t) = some t := by
  have hb : 1 ≤ t.year ∧ t.year ≤ 9999 ∧ 1 ≤ t.month ∧ t.month ≤ 12 ∧
      1 ≤ t.day ∧ t.day ≤ daysInMonth t.year t.month ∧ t.hour ≤ 23 ∧
      t.minute ≤ 59 ∧ t.second ≤ 59 := by
    simpa [validDateTime, and_assoc] using hv
  have hdm : daysInMonth t.year t.month ≤ 31 := by
    rw [daysInMonth]
    split
    · split <;> norm_num
    · split <;> norm_num
  simp only [parseTimestampFields,
    parseDateMDY_format t (by omega) (by omega) (by omega),
    parseTimeHMS_format t (by omega) (by omega) (by omega), hv, if_true]

theorem wireFieldChar_ne (c : Char) (h : wireFieldChar c = true) (d : Char)
    (hd : wireFieldChar d = false) : c ≠ d := by
  intro he
  rw [he, hd] at h
  exact Bool.noConfusion h

theorem wireFieldChar_not_space (c : Char) (h : wireFieldChar c = true) :
    pyIsSpace c = false := by
  simp only [wireFieldChar, Bool.or_eq_true] at h
  rcases h with ((((hd | h1) | h2) | h3) | h4)
  · exact isDigitChar_not_space c hd
  · rcases beq_iff_eq.mp h1 with rfl
    rfl
  · rcases beq_iff_eq.mp h2 with rfl
    rfl
  · rcases beq_iff_eq.mp h3 with rfl
    rfl
  · rcases beq_iff_eq.mp h4 with rfl
    rfl

theorem digit_wireFieldChar (c : Char) (h : isDigitChar c = true) :
    wireFieldChar c = true := by
  simp [wireFieldChar, h]

theorem padNat_wire (k n : ℕ) : ∀ c ∈ padNat k n, wireFieldChar c = true :=
  fun c hc => digit_wireFieldChar c (padNat_all_digit k n c hc)

theorem intToChars_wire (z : ℤ) : ∀ c ∈ intToChars z, wireFieldChar c = true := by
  intro c hc
  rw [intToChars] at hc
  split at hc
  · rcases List.mem_cons.mp hc with rfl | h2
    · rfl
    · exact digit_wireFieldChar c (natToDigits_all_digit _ c h2)
  · exact digit_wireFieldChar c (natToDigits_all_digit _ c hc)

theorem centiToChars_wire (a : ℤ) : ∀ c ∈ centiToChars a, wireFieldChar c = true := by
  intro c hc
  simp only [centiToChars, List.mem_append, List.mem_cons] at hc
  rcases hc with (h1 | h2) | h3 | h4
  · split at h1
    · rcases List.mem_singleton.mp h1 with rfl
      rfl
    · simp at h1
  · exact digit_wireFieldChar c (natToDigits_all_digit _ c h2)
  · rcases h3 with rfl
    rfl
  · exact digit_wireFieldChar c (padNat_all_digit 2 _ c h4)

theorem formatDateMDY_wire (t : DateTimeVal) :
    ∀ c ∈ formatDateMDY t, wireFieldChar c = true := by
  intro c hc
  simp only [formatDateMDY, List.mem_append, List.mem_cons] at hc
  rcases hc with h1 | h2 | h3 | h4 | h5
  · exact padNat_wire 2 t.month c h1
  · rcases h2 with rfl
    rfl
  · exact padNat_wire 2 t.day c h3
  · rcases h4 with rfl
    rfl
  · exact padNat_wire 4 t.year c h5

theorem formatTimeHMS_wire (t : DateTimeVal) :
    ∀ c ∈ formatTimeHMS t, wireFieldChar c = true := by
  intro c hc
  simp only [formatTimeHMS, List.mem_append, List.mem_cons] at hc
  rcases hc with h1 | h2 | h3 | h4 | h5
  · exact padNat_wire 2 t.hour c h1
  · rcases h2 with rfl
    rfl
  · exact padNat_wire 2 t.minute c h3
  · rcases h4 with rfl
    rfl
  · exact padNat_wire 2 t.second c h5

theorem armedWireFields_wire (r : RawArmed) :
    ∀ f ∈ armedWireFields r, ∀ c ∈ f, wireFieldChar c = true := by
  intro f hf
  simp only [armedWireFields, List.mem_cons, List.not_mem_nil, or_false] at hf
  rcases hf with rfl | rfl | rfl | rfl | rfl | rfl | rfl | rfl | rfl | rfl | rfl | rfl |
    rfl | rfl | rfl | rfl
  · exact formatDateMDY_wire r.ts
  · exact formatTimeHMS_wire r.ts
  · exact centiToChars_wire r.altCenti
  all_goals exact intToChars_wire _

theorem mem_joinWith (sep : Char) (fs : List (List Char)) (c : Char)
    (hc : c ∈ joinWith sep fs) : c = sep ∨ ∃ f ∈ fs, c ∈ f := by
  induction fs with
  | nil => simp [joinWith] at hc
  | cons f rest ih =>
    cases rest with
    | nil =>
      refine Or.inr ⟨f, by simp, ?_⟩
      simpa [joinWith] using hc
    | cons g gs =>
      have hj : joinWith sep (f :: g :: gs) = f ++ sep :: joinWith sep (g :: gs) := rfl
      rw [hj] at hc
      rcases List.mem_append.mp hc with h1 | h2
      · exact Or.inr ⟨f, by simp, h1⟩
      · rcases List.mem_cons.mp h2 with rfl | h3
        · exact Or.inl rfl
        · rcases ih h3 with h4 | ⟨f2, hf2, hcf2⟩
          · exact Or.inl h4
          · exact Or.inr ⟨f2, by simp [hf2], hcf2⟩

theorem serializeArmed_no_space (r : RawArmed) :
    ∀ c ∈ serializeArmed r, pyIsSpace c = false := by
  intro c hc
  simp only [serializeArmed, List.mem_append, List.mem_cons, List.mem_singleton] at hc
  rcases hc with (rfl | h2) | (rfl | h3)
  · rfl
  · rcases mem_joinWith _ _ _ h2 with rfl | ⟨f, hf, hcf⟩
    · rfl
    · exact wireFieldChar_not_space c (armedWireFields_wire r f hf c hcf)
  · rfl
  · simp at h3

theorem serializeArmed_strip (r : RawArmed) :
    pyStrip (serializeArmed r) = serializeArmed r :=
  pyStrip_eq_self _ (serializeArmed_no_space r)

theorem serializeArmed_body (r : RawArmed) :
    (((serializeArmed r).drop 1).dropLast) = joinWith (',') (armedWireFields r) := by
  rw [serializeArmed, List.cons_append, List.drop_one, List.tail_cons, List.dropLast_concat]

theorem serializeArmed_split (r : RawArmed) :
    splitOnChar (',') (((serializeArmed r).drop 1).dropLast) = armedWireFields r := by
  rw [serializeArmed_body]
  refine splitOnChar_joinWith _ _ (by simp [armedWireFields]) ?_
  intro f hf hmem
  have := armedWireFields_wire r f hf (',') hmem
  exact absurd this (by decide)

/-- C5. For every legal 16-field ARMED record (a timestamp within the
datetime ranges; raw integer fields; a two-decimal altitude), parsing the
serialization with the canonical scale table succeeds, increments the
packet counter, and returns exactly the sample whose entries are the
scale-table decoding of the record — Parse(serialize(sample)) = sample. -/
theorem C5_parse_serialize_roundtrip (st : ParserState) (r : RawArmed)
    (hv : validDateTime r.ts = true) :
    parseTelemetry st (serializeArmed r) =
      (⟨st.packetCount + 1, st.errorCount⟩,
       some (armedDict st.packetCount r.ts ((r.altCenti : ℚ) / 100) r.ax r.ay r.az
         r.gx r.gy r.gz r.mx r.my r.mz r.lat r.lon r.sats r.temp)) := by
  have hhead : (serializeArmed r).head? = some '<' := by
    rw [serializeArmed, List.cons_append]
    rfl
  have hlast : (serializeArmed r).getLast? = some '>' := by
    rw [serializeArmed]
    exact List.getLast?_concat _
  rw [parseTelemetry]
  simp only [serializeArmed_strip, hhead, hlast, and_self, if_true, serializeArmed_split]
  rw [if_pos (by simp [armedWireFields])]
  have harm : parseArmedDict st.packetCount (armedWireFields r) =
      some (armedDict st.packetCount r.ts ((r.altCenti : ℚ) / 100) r.ax r.ay r.az
        r.gx r.gy r.gz r.mx r.my r.mz r.lat r.lon r.sats r.temp) := by
    simp only [armedWireFields, parseArmedDict, parseTimestampFields_format r.ts hv,
      parseFloat_centiToChars, parseInt_intToChars]
    rfl
  rw [harm]

/-- C5 witness: a concrete legal record round-trips through the wire. -/
theorem C5_witness :
    validDateTime ⟨2025, 5, 27, 11, 43, 46⟩ = true ∧
    parseTelemetry ⟨3, 1⟩
        (serializeArmed ⟨⟨2025, 5, 27, 11, 43, 46⟩, 95, -37, 12, 981, 500, -300, 1000,
          200, -310, 405, 283968370, -806056590, 8, 25⟩) =
      (⟨3 + 1, 1⟩,
       some (armedDict 3 ⟨2025, 5, 27, 11, 43, 46⟩ ((95 : ℚ) / 100) (-37) 12 981 500
         (-300) 1000 200 (-310) 405 283968370 (-806056590) 8 25)) :=
  ⟨by decide, C5_parse_serialize_roundtrip ⟨3, 1⟩ _ (by decide)⟩

/-- C8. Any input line that fails the framing check after stripping, or
whose comma-split body has a field count other than 16 or 7, makes the
parser return nothing, increment the error counter by exactly one, and
leave the packet counter unchanged. -/
theorem C8_malformed_frame (st : ParserState) (line : List Char)
    (h : ¬((pyStrip line).head? = some '<' ∧ (pyStrip line).getLast? = some '>') ∨
      ((splitOnChar (',') (((pyStrip line).drop 1).dropLast)).length ≠ 16 ∧
       (splitOnChar (',') (((pyStrip line).drop 1).dropLast)).length ≠ 7)) :
    parseTelemetry st line = (⟨st.packetCount, st.errorCount + 1⟩, none) := by
  rw [parseTelemetry]
  by_cases hf : (pyStrip line).head? = some '<' ∧ (pyStrip line).getLast? = some '>'
  · rcases h with h1 | ⟨h16, h7⟩
    · exact absurd hf h1
    · rw [if_pos hf, if_neg h16, if_neg h7]
  · rw [if_neg hf]

theorem transitionTo_triggered (st : DetectorState) (p : FlightPhase) (ts : ℚ)
    (d : EventData) :
    (transitionTo st p ts d).1.apogeeEventTriggered = st.apogeeEventTriggered := rfl

theorem transitionTo_phaseTo (st : DetectorState) (p : FlightPhase) (ts : ℚ)
    (d : EventData) : (transitionTo st p ts d).2.phaseTo = p := rfl

theorem transitionTo_history (st : DetectorState) (p : FlightPhase) (ts : ℚ)
    (d : EventData) :
    (transitionTo st p ts d).1.phaseHistory = st.phaseHistory ++ [(ts, p)] := rfl

theorem startApogeeWindow_triggered (st : DetectorState) (vv : ℚ) :
    (startApogeeWindow st vv).apogeeEventTriggered = st.apogeeEventTriggered := by
  rw [startApogeeWindow]
  split <;> rfl

theorem startApogeeWindow_history (st : DetectorState) (vv : ℚ) :
    (startApogeeWindow st vv).phaseHistory = st.phaseHistory := by
  rw [startApogeeWindow]
  split <;> rfl

theorem countApogee_nil : countApogee [] = 0 := rfl

theorem countApogee_single_not (ev : FlightEvent) (h : ev.phaseTo ≠ FlightPhase.APOGEE) :
    countApogee [ev] = 0 := by
  simp [countApogee, isApogeeEvent, List.filter, h]

theorem checkApogee_potQ (st : DetectorState) (vv altitudeM ts : ℚ) :
    countApogee (checkApogeeConditions st vv altitudeM ts).2.toList +
      potQ (checkApogeeConditions st vv altitudeM ts).1 ≤ potQ st := by
  rw [checkApogeeConditions]
  by_cases h1 : st.apogeeEventTriggered
  · simp [h1, potQ, countApogee]
  · simp only [h1, Bool.false_eq_true, if_false]
    have hpot : potQ st = 1 := by simp [potQ, h1]
    split_ifs with h2 h3 <;>
      simp [hpot, potQ, transitionTo, countApogee, isApogeeEvent, h1]

theorem detMachine_potQ (st4 : DetectorState) (tel : DetInput)
    (mt accelG altitudeM vv : ℚ) :
    countApogee (detMachine st4 tel mt accelG altitudeM vv).2 +
      potQ (detMachine st4 tel mt accelG altitudeM vv).1 ≤ potQ st4 := by
  have hone : ∀ (st5 st6 : DetectorState) (ev : FlightEvent),
      ev.phaseTo ≠ FlightPhase.APOGEE →
      st6.apogeeEventTriggered = st5.apogeeEventTriggered →
      countApogee [ev] + potQ st6 ≤ potQ st5 := by
    intro st5 st6 ev hne htrig
    rw [countApogee_single_not ev hne]
    simp [potQ, htrig]
  rw [detMachine]
  cases hcp : st4.currentPhase
  all_goals dsimp only
  case IDLE => simp [countApogee]
  case LANDED => simp [countApogee]
  case ARMED =>
    split_ifs
    · exact hone st4 _ _ (by rw [transitionTo_phaseTo]; decide)
        (by rw [transitionTo_triggered])
    · simp [countApogee]
  case LAUNCH =>
    split_ifs <;>
      first
        | exact hone st4 _ _ (by rw [transitionTo_phaseTo]; decide)
            (by rw [transitionTo_triggered])
        | simp [countApogee]
  case BOOST =>
    split_ifs
    · exact hone st4 _ _ (by rw [transitionTo_phaseTo]; decide)
        (by rw [startApogeeWindow_triggered, transitionTo_triggered])
    · simp [countApogee]
  case BURNOUT =>
    split_ifs
    · exact hone st4 _ _ (by rw [transitionTo_phaseTo]; decide)
        (by rw [transitionTo_triggered])
    · simp [countApogee]
  case COAST => exact checkApogee_potQ _ _ _ _
  case APOGEE =>
    split_ifs
    · exact hone st4 _ _ (by rw [transitionTo_phaseTo]; decide)
        (by rw [transitionTo_triggered])
    · simp [countApogee]
  case DESCENT =>
    split_ifs
    · exact hone st4 _ _ (by rw [transitionTo_phaseTo]; decide)
        (by rw [transitionTo_triggered])
    · simp [countApogee]
  case LANDING =>
    split_ifs
    · exact hone st4 _ _ (by rw [transitionTo_phaseTo]; decide)
        (by rw [transitionTo_triggered])
    · simp [countApogee]

theorem detPrelude_triggered (st : DetectorState) (tel : DetInput)
    (hne : st.phaseHistory ≠ []) :
    (detPrelude st tel).1.apogeeEventTriggered = st.apogeeEventTriggered := by
  rw [detPrelude]
  simp only [List.isEmpty_iff, hne, if_false]
  split <;> rfl

theorem detPrelude_history (st : DetectorState) (tel : DetInput)
    (hne : st.phaseHistory ≠ []) :
    (detPrelude st tel).1.phaseHistory = st.phaseHistory := by
  rw [detPrelude]
  simp only [List.isEmpty_iff, hne, if_false]
  split <;> rfl

theorem detStep_potQ (st : DetectorState) (tel : DetInput) (hne : st.phaseHistory ≠ []) :
    countApogee (detProcessTelemetry st tel).2 + potQ (detProcessTelemetry st tel).1 ≤
      potQ st := by
  rw [detProcessTelemetry]
  have h1 := detMachine_potQ (detPrelude st tel).1 tel (detPrelude st tel).2.1
    (detPrelude st tel).2.2.1 (detPrelude st tel).2.2.2.1 (detPrelude st tel).2.2.2.2
  have h2 : potQ (detPrelude st tel).1 = potQ st := by
    rw [potQ, potQ, detPrelude_triggered st tel hne]
  omega

theorem countApogee_append (a b : List FlightEvent) :
    countApogee (a ++ b) = countApogee a + countApogee b := by
  simp [countApogee, List.filter_append]

theorem checkApogee_history (st : DetectorState) (vv altitudeM ts : ℚ) :
    (checkApogeeConditions st vv altitudeM ts).1.phaseHistory = st.phaseHistory ∨
    ∃ p, (checkApogeeConditions st vv altitudeM ts).1.phaseHistory =
      st.phaseHistory ++ [(ts, p)] := by
  rw [checkApogeeConditions]
  by_cases h1 : st.apogeeEventTriggered
  · rw [if_pos h1]
    exact Or.inl rfl
  · rw [if_neg (by simp [h1])]
    dsimp only
    split_ifs <;>
      first
        | exact Or.inl rfl
        | exact Or.inr ⟨_, by rw [transitionTo_history]⟩

theorem detMachine_history (st4 : DetectorState) (tel : DetInput)
    (mt accelG altitudeM vv : ℚ) :
    (detMachine st4 tel mt accelG altitudeM vv).1.phaseHistory = st4.phaseHistory ∨
    ∃ p, (detMachine st4 tel mt accelG altitudeM vv).1.phaseHistory =
      st4.phaseHistory ++ [(tel.timestamp, p)] := by
  rw [detMachine]
  cases hcp : st4.currentPhase
  all_goals dsimp only
  case IDLE => exact Or.inl rfl
  case LANDED => exact Or.inl rfl
  case COAST => exact checkApogee_history _ _ _ _
  case ARMED =>
    split_ifs
    · exact Or.inr ⟨_, by rw [transitionTo_history]⟩
    · exact Or.inl rfl
  case LAUNCH =>
    split_ifs <;>
      first
        | exact Or.inr ⟨_, by rw [transitionTo_history]⟩
        | exact Or.inl rfl
  case BOOST =>
    split_ifs
    · exact Or.inr ⟨_, by rw [startApogeeWindow_history, transitionTo_history]⟩
    · exact Or.inl rfl
  case BURNOUT =>
    split_ifs
    · exact Or.inr ⟨_, by rw [transitionTo_history]⟩
    · exact Or.inl rfl
  case APOGEE =>
    split_ifs
    · exact Or.inr ⟨_, by rw [transitionTo_history]⟩
    · exact Or.inl rfl
  case DESCENT =>
    split_ifs
    · exact Or.inr ⟨_, by rw [transitionTo_history]⟩
    · exact Or.inl rfl
  case LANDING =>
    split_ifs
    · exact Or.inr ⟨_, by rw [transitionTo_history]⟩
    · exact Or.inl rfl

theorem detStep_history (st : DetectorState) (tel : DetInput)
    (hne : st.phaseHistory ≠ []) :
    (detProcessTelemetry st tel).1.phaseHistory = st.phaseHistory ∨
    ∃ p, (detProcessTelemetry st tel).1.phaseHistory =
      st.phaseHistory ++ [(tel.timestamp, p)] := by
  rw [detProcessTelemetry]
  have h := detMachine_history (detPrelude st tel).1 tel (detPrelude st tel).2.1
    (detPrelude st tel).2.2.1 (detPrelude st tel).2.2.2.1 (detPrelude st tel).2.2.2.2
  rw [detPrelude_history st tel hne] at h
  exact h

theorem detStep_history_ne (st : DetectorState) (tel : DetInput)
    (hne : st.phaseHistory ≠ []) :
    (detProcessTelemetry st tel).1.phaseHistory ≠ [] := by
  rcases detStep_history st tel hne with h | ⟨p, h⟩
  · rw [h]
    exact hne
  · rw [h]
    simp

theorem runDetector_potQ (tels : List DetInput) : ∀ st : DetectorState,
    st.phaseHistory ≠ [] →
    countApogee (runDetector st tels).2 + potQ (runDetector st tels).1 ≤ potQ st := by
  induction tels with
  | nil =>
    intro st _
    simp [runDetector, countApogee]
  | cons tel tels ih =>
    intro st h
    have hstep := detStep_potQ st tel h
    have hrest := ih (detProcessTelemetry st tel).1 (detStep_history_ne st tel h)
    rw [runDetector]
    dsimp only
    rw [countApogee_append]
    omega

/-- C3. Within one detector session (started by reset or arm, so the
apogee flag is clear and the history is non-empty), at most one apogee
event is ever emitted over any packet sequence. -/
theorem C3_single_apogee_per_session (st0 : DetectorState) (tels : List DetInput)
    (harm : st0.apogeeEventTriggered = false) (hne : st0.phaseHistory ≠ []) :
    countApogee (runDetector st0 tels).2 ≤ 1 := by
  have h := runDetector_potQ tels st0 hne
  have hp : potQ st0 = 1 := by simp [potQ, harm]
  omega

/-- C3 witness: a freshly armed session over a concrete packet emits at
most one apogee event. -/
theorem C3_witness :
    ((armDetector 0 0).1.apogeeEventTriggered = false ∧
     (armDetector 0 0).1.phaseHistory ≠ []) ∧
    countApogee (runDetector (armDetector 0 0).1
      [⟨1, some 3, some 10, some 50⟩, ⟨2, some 3, some 20, some 50⟩]).2 ≤ 1 :=
  ⟨⟨by decide, by decide⟩,
   C3_single_apogee_per_session (armDetector 0 0).1 _ (by decide) (by decide)⟩

theorem chainLe_of_le (a b : ℚ) (l : List ℚ) (hba : b ≤ a)
    (h : List.Chain (· ≤ ·) a l) : List.Chain (· ≤ ·) b l := by
  cases l with
  | nil => exact List.Chain.nil
  | cons x xs =>
    rcases List.chain_cons.mp h with ⟨hax, hxs⟩
    exact List.chain_cons.mpr ⟨le_trans hba hax, hxs⟩

theorem historyMono_append_single (h : List (ℚ × FlightPhase)) (t : ℚ) (p : FlightPhase)
    (hm : historyMono h) (hlast : ∀ e ∈ h.getLast?, e.1 ≤ t) :
    historyMono (h ++ [(t, p)]) := by
  rw [historyMono, List.chain'_append]
  refine ⟨hm, List.chain'_singleton _, fun x hx y hy => ?_⟩
  cases (by simpa using hy : (t, p) = y)
  exact hlast x hx

theorem detStep_lastTime (st : DetectorState) (tel : DetInput)
    (hne : st.phaseHistory ≠ []) (hle : lastTime st ≤ tel.timestamp) :
    lastTime (detProcessTelemetry st tel).1 ≤ tel.timestamp := by
  rcases detStep_history st tel hne with h | ⟨p, h⟩
  · rw [lastTime, h]
    exact hle
  · rw [lastTime, h, List.getLast?_concat]
    exact le_refl _

theorem runDetector_mono (tels : List DetInput) : ∀ st : DetectorState,
    st.phaseHistory ≠ [] → historyMono st.phaseHistory →
    List.Chain (· ≤ ·) (lastTime st) (tels.map DetInput.timestamp) →
    historyMono (runDetector st tels).1.phaseHistory := by
  induction tels with
  | nil =>
    intro st _ hm _
    simpa [runDetector] using hm
  | cons tel tels ih =>
    intro st hne hm hchain
    simp only [List.map_cons] at hchain
    obtain ⟨hle, hrest⟩ := List.chain_cons.mp hchain
    have hne2 := detStep_history_ne st tel hne
    have hm2 : historyMono (detProcessTelemetry st tel).1.phaseHistory := by
      rcases detStep_history st tel hne with h | ⟨p, h⟩
      · rw [h]
        exact hm
      · rw [h]
        refine historyMono_append_single _ _ _ hm ?_
        intro e he
        rw [Option.mem_def] at he
        have hlt : lastTime st = e.1 := by
          rw [lastTime, he]
          rfl
        exact hlt ▸ hle
    have hlast2 := detStep_lastTime st tel hne hle
    have hchain2 := chainLe_of_le tel.timestamp _ _ hlast2 hrest
    rw [runDetector]
    dsimp only
    exact ih _ hne2 hm2 hchain2

/-- C9 (amended). The phase history is monotone in timestamp provided the
arm command is not stamped before the reset wall clock and the packet
timestamps are non-decreasing starting from the arm time; the source
itself never enforces this ordering. -/
theorem C9_history_monotone (t0 t1 : ℚ) (h01 : t0 ≤ t1) (tels : List DetInput)
    (hchain : List.Chain (· ≤ ·) t1 (tels.map DetInput.timestamp)) :
    historyMono (runDetector (armDetector t0 t1).1 tels).1.phaseHistory := by
  have hh : (armDetector t0 t1).1.phaseHistory =
      [(t0, FlightPhase.IDLE), (t1, FlightPhase.ARMED)] := rfl
  have hlt : lastTime (armDetector t0 t1).1 = t1 := rfl
  refine runDetector_mono tels _ (by rw [hh]; simp) ?_ (by rw [hlt]; exact hchain)
  rw [historyMono, hh]
  exact List.chain'_cons.mpr ⟨h01, List.chain'_singleton _⟩

/-- C9 counterexample: packets stamped before the arm wall-clock time
still drive transitions, so the phase history of the session is not
monotone — the Launch entry is stamped 50 after the Armed entry
stamped 100. -/
theorem C9_counterexample :
    ¬ historyMono (runDetector (armDetector 0 100).1
      [⟨50, some 3, some 0, some 0⟩, ⟨50, some 3, some 0, some 0⟩,
       ⟨50, some 3, some 0, some 0⟩]).1.phaseHistory := by decide

/-- C9 witness: a session with ordered timestamps has a monotone history. -/
theorem C9_witness :
    ((0 : ℚ) ≤ 1 ∧
     List.Chain (· ≤ ·) (1 : ℚ)
       (List.map DetInput.timestamp
         [⟨2, some 3, some 0, some 0⟩, ⟨3, some 3, some 0, some 0⟩])) ∧
    historyMono (runDetector (armDetector 0 1).1
      [⟨2, some 3, some 0, some 0⟩, ⟨3, some 3, some 0, some 0⟩]).1.phaseHistory :=
  ⟨⟨by norm_num, by norm_num [List.chain_cons]⟩,
   C9_history_monotone 0 1 (by norm_num) _ (by norm_num [List.chain_cons])⟩

theorem detPrelude_phase (st : DetectorState) (tel : DetInput)
    (hne : st.phaseHistory ≠ []) :
    (detPrelude st tel).1.currentPhase = st.currentPhase := by
  rw [detPrelude]
  simp only [List.isEmpty_iff, hne, if_false]
  split <;> rfl

theorem detPrelude_accelG (st : DetectorState) (tel : DetInput)
    (hne : st.phaseHistory ≠ []) :
    (detPrelude st tel).1.accelGSamples =
      dequeAppend 20 st.accelGSamples (tel.accelMagnitudeG.getD 1) := by
  rw [detPrelude]
  simp only [List.isEmpty_iff, hne, if_false]
  split <;> rfl

theorem lastN_length (n : ℕ) (xs : List ℚ) : (lastN n xs).length = min n xs.length := by
  rw [lastN, List.length_drop]
  omega

theorem checkLaunch_iff (st : DetectorState) :
    checkLaunchConditions st = true ↔
      (3 ≤ st.accelGSamples.length ∧ ∀ a ∈ lastN 3 st.accelGSamples, 2 < a) := by
  rw [checkLaunchConditions]
  dsimp only
  split_ifs with h1 h2
  · simp only [Bool.false_eq_true, false_iff, not_and]
    intro h
    omega
  · exfalso
    rw [List.isEmpty_iff] at h2
    have hl := lastN_length 3 st.accelGSamples
    rw [h2] at hl
    simp at hl
    omega
  · simp only [List.all_eq_true, decide_eq_true_eq]
    constructor
    · intro h
      exact ⟨by omega, h⟩
    · intro h
      exact h.2

/-- C2 (amended). In the Armed phase, the detector transitions to Launch
exactly when, after appending the current sample, there are at least
int(0.3 * 10) = 3 acceleration samples and the last 3 are all strictly
above 2.0 g; a sustained 2.01 g triggers Launch, while exactly 2.0 g or
1.99 g does not (the comparison in the source is strict). -/
theorem C2_launch_iff (st : DetectorState) (tel : DetInput)
    (hne : st.phaseHistory ≠ []) (hph : st.currentPhase = FlightPhase.ARMED) :
    (detProcessTelemetry st tel).1.currentPhase = FlightPhase.LAUNCH ↔
      (3 ≤ (dequeAppend 20 st.accelGSamples (tel.accelMagnitudeG.getD 1)).length ∧
       ∀ a ∈ lastN 3 (dequeAppend 20 st.accelGSamples (tel.accelMagnitudeG.getD 1)),
         2 < a) := by
  have hphase : (detPrelude st tel).1.currentPhase = FlightPhase.ARMED := by
    rw [detPrelude_phase st tel hne, hph]
  have hmachine : (detMachine (detPrelude st tel).1 tel (detPrelude st tel).2.1
      (detPrelude st tel).2.2.1 (detPrelude st tel).2.2.2.1
      (detPrelude st tel).2.2.2.2).1.currentPhase =
      (if checkLaunchConditions (detPrelude st tel).1 then FlightPhase.LAUNCH
       else FlightPhase.ARMED) := by
    rw [detMachine, hphase]
    dsimp only
    split_ifs
    · rfl
    · exact hphase
  rw [detProcessTelemetry]
  rw [hmachine]
  rw [← detPrelude_accelG st tel hne, ← checkLaunch_iff]
  split_ifs with h
  · simp [h]
  · constructor
    · intro hcontra
      exact hcontra.elim
    · intro hct
      exact absurd hct h

/-- C2 counterexample: three consecutive samples at exactly 2.0 g (0.3 s
at 10 Hz) leave the detector in Armed, refuting that the threshold fires
at exactly 2.0 g. -/
theorem C2_counterexample :
    (runDetector (armDetector 0 0).1
      [⟨1, some 2, some 0, some 0⟩, ⟨2, some 2, some 0, some 0⟩,
       ⟨3, some 2, some 0, some 0⟩]).1.currentPhase = FlightPhase.ARMED ∧
    (runDetector (armDetector 0 0).1
      [⟨1, some 2, some 0, some 0⟩, ⟨2, some 2, some 0, some 0⟩,
       ⟨3, some 2, some 0, some 0⟩]).1.accelGSamples = [2, 2, 2] := by decide

/-- C2 witness: with two prior samples at 2.01 g, a third 2.01 g sample
makes the Armed detector transition to Launch. -/
theorem C2_witness :
    ((runDetector (armDetector 0 0).1
        [⟨1, some (201 / 100), some 0, some 0⟩,
         ⟨2, some (201 / 100), some 0, some 0⟩]).1.phaseHistory ≠ [] ∧
     (runDetector (armDetector 0 0).1
        [⟨1, some (201 / 100), some 0, some 0⟩,
         ⟨2, some (201 / 100), some 0, some 0⟩]).1.currentPhase = FlightPhase.ARMED) ∧
    ((detProcessTelemetry
        (runDetector (armDetector 0 0).1
          [⟨1, some (201 / 100), some 0, some 0⟩,
           ⟨2, some (201 / 100), some 0, some 0⟩]).1
        ⟨3, some (201 / 100), some 0, some 0⟩).1.currentPhase = FlightPhase.LAUNCH ↔
      (3 ≤ (dequeAppend 20
          (runDetector (armDetector 0 0).1
            [⟨1, some (201 / 100), some 0, some 0⟩,
             ⟨2, some (201 / 100), some 0, some 0⟩]).1.accelGSamples
          ((some (201 / 100) : Option ℚ).getD 1)).length ∧
       ∀ a ∈ lastN 3 (dequeAppend 20
          (runDetector (armDetector 0 0).1
            [⟨1, some (201 / 100), some 0, some 0⟩,
             ⟨2, some (201 / 100), some 0, some 0⟩]).1.accelGSamples
          ((some (201 / 100) : Option ℚ).getD 1)), 2 < a)) :=
  ⟨⟨by decide, by decide⟩, C2_launch_iff _ _ (by decide) (by decide)⟩

theorem withinWindow_false (s : Option ℚ) (t w : ℚ) (hlt : w + 2 < t) :
    (if (pyTruthyQ s && pyTruthyQ (some w)) = true
     then decide (s.getD 0 ≤ t ∧ t ≤ w) else false) = false := by
  split_ifs with h
  · apply decide_eq_false
    intro hc
    linarith [hc.2]
  · rfl

/-- C4 (amended). When the mission time is more than 2 s past a nonzero
apogee window end, the vertical velocity is below -1.5 m/s and no apogee
has fired, the apogee check emits one Apogee event with confidence 0.5
and a late-detection note, records the (nonzero) time of maximum altitude
as the apogee time, and attaches no within_window key at all (the source
omits it on the fallback path). -/
theorem C4_late_fallback (st : DetectorState) (vv altitudeM ts w mA : ℚ)
    (htrig : st.apogeeEventTriggered = false)
    (hwe : st.apogeeWindowEndTime = some w) (hw0 : w ≠ 0)
    (hlate : w + 2 < st.currentMissionTimeS)
    (hv : vv < -(0.5 * 3))
    (hmax : st.maxAltitudeMissionTime = some mA) (hmA : mA ≠ 0) :
    ∃ ev : FlightEvent,
      (checkApogeeConditions st vv altitudeM ts).2 = some ev ∧
      ev.phaseTo = FlightPhase.APOGEE ∧
      ev.confidence = 0.5 ∧
      ev.data.detectionConfidence = some 0.5 ∧
      ev.data.withinWindow = none ∧
      ev.data.detectionNote = true ∧
      (checkApogeeConditions st vv altitudeM ts).1.apogeeMissionTime = some mA ∧
      (checkApogeeConditions st vv altitudeM ts).1.apogeeEventTriggered = true := by
  have h05 : (0.5 : ℚ) = 1 / 2 := by norm_num [ratOfScientific_eq]
  have hv' : vv < -(3 / 2) := by rw [h05] at hv; linarith
  have hVel : (decide (|vv| < 0.5)) = false := by
    apply decide_eq_false
    intro habs
    rw [abs_of_neg (by linarith), h05] at habs
    linarith
  rw [checkApogeeConditions, if_neg (by simp [htrig])]
  dsimp only
  by_cases hl : pyTruthyQ (predictApogeeTime st.apogeePredictor) = true <;>
    simp only [hl, Bool.false_eq_true, if_true, if_false] <;>
    simp only [hwe, hmax, Option.getD_some] <;>
    rw [withinWindow_false _ _ _ hlate] <;>
    simp only [hVel, Bool.false_eq_true, if_false, false_and] <;>
    rw [if_neg (by split_ifs <;> norm_num [ratOfScientific_eq])] <;>
    rw [if_pos ⟨by simp [pyTruthyQ, hw0], hlate, hv⟩] <;>
    exact ⟨_, rfl, rfl, rfl, rfl, rfl, rfl,
           by simp [transitionTo, pyOr1, pyTruthyQ, hmA], rfl⟩

/-- C4 counterexample to the original wording: in the late-fallback session
the detector does emit the Apogee event with confidence 0.5 at the time of
maximum altitude (mission time 6/5 s), but the event data carries no
within_window entry at all (the field is none, not false) and instead an
is_late_detection note. -/
theorem C4_counterexample :
    (c4Run.2.getLast?.map fun ev =>
      (ev.phaseTo, ev.confidence, ev.data.withinWindow, ev.data.detectionNote)) =
      some (FlightPhase.APOGEE, 1/2, (none : Option Bool), true) ∧
    c4Run.1.apogeeMissionTime = some (6/5) ∧
    c4Run.1.apogeeEventTriggered = true := by with_unfolding_all decide

theorem C4_witness :
    ∃ ev : FlightEvent,
      (checkApogeeConditions c4State (-2) 90 20).2 = some ev ∧
      ev.phaseTo = FlightPhase.APOGEE ∧
      ev.confidence = 0.5 ∧
      ev.data.detectionConfidence = some 0.5 ∧
      ev.data.withinWindow = none ∧
      ev.data.detectionNote = true ∧
      (checkApogeeConditions c4State (-2) 90 20).1.apogeeMissionTime = some 6 ∧
      (checkApogeeConditions c4State (-2) 90 20).1.apogeeEventTriggered = true :=
  C4_late_fallback c4State (-2) 90 20 10 6 rfl rfl (by norm_num)
    (by with_unfolding_all decide) (by with_unfolding_all decide) rfl (by norm_num)

/-- C6. For every sample dict, the validator's overall flag equals the
conjunction of the five subsystem flags, and each subsystem flag is true
when that subsystem's fields are absent from the sample. -/
theorem C6_validator_flags :
    (∀ d : PyDict, (validatePacket d).overall_valid =
      ((validatePacket d).gps_valid && (validatePacket d).imu_valid &&
       (validatePacket d).mag_valid && (validatePacket d).baro_valid &&
       (validatePacket d).temp_valid)) ∧
    (∀ d : PyDict, d.lookup "latitude_deg" = none ∨ d.lookup "longitude_deg" = none →
      (validatePacket d).gps_valid = true) ∧
    (∀ d : PyDict, d.lookup "accel_x_mps2" = none → (validatePacket d).imu_valid = true) ∧
    (∀ d : PyDict, d.lookup "mag_x_ut" = none → (validatePacket d).mag_valid = true) ∧
    (∀ d : PyDict, d.lookup "altitude_m" = none → (validatePacket d).baro_valid = true) ∧
    (∀ d : PyDict, d.lookup "temperature_c" = none → (validatePacket d).temp_valid = true) := by
  refine ⟨fun d => rfl, fun d h => ?_, fun d h => ?_, fun d h => ?_, fun d h => ?_,
    fun d h => ?_⟩
  · rcases h with h | h <;> simp [validatePacket, validateGps, hasKey, h]
  · simp [validatePacket, validateImu, hasKey, h]
  · simp [validatePacket, validateMag, hasKey, h]
  · simp [validatePacket, validateBaro, hasKey, h]
  · simp [validatePacket, validateTemp, hasKey, h]

/-- C6 witness: on the empty sample every subsystem is vacuously valid and
the overall flag is the stated conjunction. -/
theorem C6_witness :
    (([] : PyDict).lookup "latitude_deg" = none) ∧
    (validatePacket []).gps_valid = true ∧
    (validatePacket []).imu_valid = true ∧
    (validatePacket []).mag_valid = true ∧
    (validatePacket []).baro_valid = true ∧
    (validatePacket []).temp_valid = true ∧
    (validatePacket []).overall_valid =
      ((validatePacket []).gps_valid && (validatePacket []).imu_valid &&
       (validatePacket []).mag_valid && (validatePacket []).baro_valid &&
       (validatePacket []).temp_valid) :=
  ⟨rfl, C6_validator_flags.2.1 [] (Or.inl rfl), C6_validator_flags.2.2.1 [] rfl,
   C6_validator_flags.2.2.2.1 [] rfl, C6_validator_flags.2.2.2.2.1 [] rfl,
   C6_validator_flags.2.2.2.2.2 [] rfl, C6_validator_flags.1 []⟩

/-- C8 witness: a frame with the wrong field count is dropped and counted. -/
theorem C8_witness :
    ((splitOnChar (',') (((pyStrip ("<1,2,3>".toList)).drop 1).dropLast)).length ≠ 16 ∧
     (splitOnChar (',') (((pyStrip ("<1,2,3>".toList)).drop 1).dropLast)).length ≠ 7) ∧
    parseTelemetry ⟨5, 7⟩ ("<1,2,3>".toList) = (⟨5, 7 + 1⟩, none) :=
  ⟨by decide, C8_malformed_frame ⟨5, 7⟩ _ (Or.inr (by decide))⟩

theorem predict_last (e : EKF) (dt : ℝ) :
    (predict e dt).lastUpdateTime = e.lastUpdateTime := rfl

theorem updateImu_last (e : EKF) (accel gyro : Vec 3) (dt : ℝ) :
    (updateImu e accel gyro dt).lastUpdateTime = e.lastUpdateTime := by
  rw [updateImu]; split <;> rfl

theorem updateGps_last (e : EKF) (lat lon alt : ℝ) :
    (updateGps e lat lon alt).lastUpdateTime = e.lastUpdateTime := by
  rw [updateGps]; dsimp only; split <;> rfl

theorem updateBaro_last (e : EKF) (alt : ℝ) :
    (updateBaro e alt).lastUpdateTime = e.lastUpdateTime := by
  rw [updateBaro]; dsimp only; split <;> rfl

theorem updateMag_last (e : EKF) (mag : Vec 3) :
    (updateMag e mag).lastUpdateTime = e.lastUpdateTime := by
  rw [updateMag]; split <;> rfl

theorem processMeasurementRun_last (e : EKF) (m : Measurement) (dt : ℝ) :
    (processMeasurementRun e m dt).lastUpdateTime = e.lastUpdateTime := by
  rw [processMeasurementRun]
  cases hm : m.mag <;> cases hb : m.baroAlt <;> cases hgp : m.gpsPos <;>
      cases ha : m.accel <;> cases hgy : m.gyro <;>
    simp only [hm, hb, hgp, ha, hgy] <;>
    (try split_ifs) <;>
    simp only [updateMag_last, updateBaro_last, updateGps_last, updateImu_last,
      predict_last]

/-- C7. When a previous update time exists and the timestamp difference
dt = t - l is non-positive or exceeds one second, the EKF packet
processor substitutes dt = 0.1 s and continues: its result is exactly the
measurement pipeline run with dt = 0.1 (run whenever both IMU sensors are
present in the dict, so the packet is not dropped), and the stored last
update time advances to the packet timestamp. -/
theorem C7_dt_substitution (e : EKF) (t l : ℝ) (d : PyDict)
    (hl : e.lastUpdateTime = some l) (hdt : t - l ≤ 0 ∨ 1 < t - l) :
    ekfProcessTelemetry e t d =
      (if (buildMeasurement d).accel ≠ none ∧ (buildMeasurement d).gyro ≠ none then
        processMeasurementRun { e with lastUpdateTime := some t }
          (buildMeasurement d) 0.1
       else { e with lastUpdateTime := some t }) ∧
    (ekfProcessTelemetry e t d).lastUpdateTime = some t := by
  have hrun : ekfProcessTelemetry e t d =
      (if (buildMeasurement d).accel ≠ none ∧ (buildMeasurement d).gyro ≠ none then
        processMeasurementRun { e with lastUpdateTime := some t }
          (buildMeasurement d) 0.1
       else { e with lastUpdateTime := some t }) := by
    rw [ekfProcessTelemetry]
    simp only [hl, Option.isNone_some, Bool.false_eq_true, false_and, if_false,
      if_pos hdt]
    split_ifs with hmeas
    · rw [processMeasurement, if_neg (by norm_num)]
    · rfl
  refine ⟨hrun, ?_⟩
  rw [hrun]
  split_ifs <;> simp only [processMeasurementRun_last]

theorem C7_witness :
    ekfProcessTelemetry c7ekf 50 c7dict =
      (if (buildMeasurement c7dict).accel ≠ none ∧
          (buildMeasurement c7dict).gyro ≠ none then
        processMeasurementRun { c7ekf with lastUpdateTime := some 50 }
          (buildMeasurement c7dict) 0.1
       else { c7ekf with lastUpdateTime := some 50 }) ∧
    (ekfProcessTelemetry c7ekf 50 c7dict).lastUpdateTime = some 50 :=
  C7_dt_substitution c7ekf 50 100 c7dict rfl (Or.inl (by norm_num))

theorem parseArmedDict_inv (pc : ℤ) (fields : List (List Char)) (d : PyDict)
    (h : parseArmedDict pc fields = some d) :
    ∃ ts alt ax ay az gx gy gz mx my mz lat lon sats temp,
      d = armedDict pc ts alt ax ay az gx gy gz mx my mz lat lon sats temp := by
  rw [parseArmedDict.eq_def] at h
  split at h
  · 
    first
    | rw [Option.bind_eq_some] at h
    | rw [Option.bind_eq_bind, Option.bind_eq_some] at h
    obtain ⟨ts, -, h⟩ := h
    first
    | rw [Option.bind_eq_some] at h
    | rw [Option.bind_eq_bind, Option.bind_eq_some] at h
    obtain ⟨alt, -, h⟩ := h
    first
    | rw [Option.bind_eq_some] at h
    | rw [Option.bind_eq_bind, Option.bind_eq_some] at h
    obtain ⟨ax, -, h⟩ := h
    first
    | rw [Option.bind_eq_some] at h
    | rw [Option.bind_eq_bind, Option.bind_eq_some] at h
    obtain ⟨ay, -, h⟩ := h
    first
    | rw [Option.bind_eq_some] at h
    | rw [Option.bind_eq_bind, Option.bind_eq_some] at h
    obtain ⟨az, -, h⟩ := h
    first
    | rw [Option.bind_eq_some] at h
    | rw [Option.bind_eq_bind, Option.bind_eq_some] at h
    obtain ⟨gx, -, h⟩ := h
    first
    | rw [Option.bind_eq_some] at h
    | rw [Option.bind_eq_bind, Option.bind_eq_some] at h
    obtain ⟨gy, -, h⟩ := h
    first
    | rw [Option.bind_eq_some] at h
    | rw [Option.bind_eq_bind, Option.bind_eq_some] at h
    obtain ⟨gz, -, h⟩ := h
    first
    | rw [Option.bind_eq_some] at h
    | rw [Option.bind_eq_bind, Option.bind_eq_some] at h
    obtain ⟨mx, -, h⟩ := h
    first
    | rw [Option.bind_eq_some] at h
    | rw [Option.bind_eq_bind, Option.bind_eq_some] at h
    obtain ⟨my, -, h⟩ := h
    first
    | rw [Option.bind_eq_some] at h
    | rw [Option.bind_eq_bind, Option.bind_eq_some] at h
    obtain ⟨mz, -, h⟩ := h
    first
    | rw [Option.bind_eq_some] at h
    | rw [Option.bind_eq_bind, Option.bind_eq_some] at h
    obtain ⟨lat, -, h⟩ := h
    first
    | rw [Option.bind_eq_some] at h
    | rw [Option.bind_eq_bind, Option.bind_eq_some] at h
    obtain ⟨lon, -, h⟩ := h
    first
    | rw [Option.bind_eq_some] at h
    | rw [Option.bind_eq_bind, Option.bind_eq_some] at h
    obtain ⟨sats, -, h⟩ := h
    first
    | rw [Option.bind_eq_some] at h
    | rw [Option.bind_eq_bind, Option.bind_eq_some] at h
    obtain ⟨temp, -, h⟩ := h
    exact ⟨ts, alt, ax, ay, az, gx, gy, gz, mx, my, mz, lat, lon, sats, temp,
      (Option.some.injEq _ _ ▸ h :
        armedDict pc ts alt ax ay az gx gy gz mx my mz lat lon sats temp = d).symm⟩
  · exact absurd h (by simp)

theorem parseRecoveryDict_inv (pc : ℤ) (fields : List (List Char)) (d : PyDict)
    (h : parseRecoveryDict pc fields = some d) :
    ∃ ts alt lat lon sats temp, d = recoveryDict pc ts alt lat lon sats temp := by
  rw [parseRecoveryDict.eq_def] at h
  split at h
  · 
    first
    | rw [Option.bind_eq_some] at h
    | rw [Option.bind_eq_bind, Option.bind_eq_some] at h
    obtain ⟨ts, -, h⟩ := h
    first
    | rw [Option.bind_eq_some] at h
    | rw [Option.bind_eq_bind, Option.bind_eq_some] at h
    obtain ⟨lat, -, h⟩ := h
    first
    | rw [Option.bind_eq_some] at h
    | rw [Option.bind_eq_bind, Option.bind_eq_some] at h
    obtain ⟨lon, -, h⟩ := h
    first
    | rw [Option.bind_eq_some] at h
    | rw [Option.bind_eq_bind, Option.bind_eq_some] at h
    obtain ⟨alt, -, h⟩ := h
    first
    | rw [Option.bind_eq_some] at h
    | rw [Option.bind_eq_bind, Option.bind_eq_some] at h
    obtain ⟨sats, -, h⟩ := h
    first
    | rw [Option.bind_eq_some] at h
    | rw [Option.bind_eq_bind, Option.bind_eq_some] at h
    obtain ⟨temp, -, h⟩ := h
    exact ⟨ts, alt, lat, lon, sats, temp,
      (Option.some.injEq _ _ ▸ h :
        recoveryDict pc ts alt lat lon sats temp = d).symm⟩
  · exact absurd h (by simp)

theorem armedDict_no_camel_mag (pc : ℤ) (ts : DateTimeVal) (alt : ℚ)
    (ax ay az gx gy gz mx my mz lat lon sats temp : ℤ) :
    hasKey (armedDict pc ts alt ax ay az gx gy gz mx my mz lat lon sats temp)
      "mag_x_uT" = false := by
  simp [armedDict, hasKey, List.lookup]

theorem recoveryDict_no_camel_mag (pc : ℤ) (ts : DateTimeVal) (alt : ℚ)
    (lat lon sats temp : ℤ) :
    hasKey (recoveryDict pc ts alt lat lon sats temp) "mag_x_uT" = false := by
  simp [recoveryDict, hasKey, List.lookup]

theorem processMeasurement_noMag (e : EKF) (m : Measurement) (dt : ℝ)
    (h : m.mag = none) :
    processMeasurement e m dt = processMeasurementNoMag e m dt := by
  rw [processMeasurement, processMeasurementNoMag]
  split_ifs with hdt
  · rfl
  · rw [processMeasurementRun, processMeasurementRunNoMag]
    simp only [h]

/-- C10. Every dict the parser produces lacks the camel-case key
mag_x_uT the EKF looks for (the parser emits mag_x_ut), so the built
measurement carries no magnetometer reading and the measurement pipeline
coincides with the magnetometer-free pipeline: update_mag is never
invoked on parsed telemetry. -/
theorem C10_mag_never_used (st : ParserState) (cs : List Char)
    (st2 : ParserState) (d : PyDict)
    (h : parseTelemetry st cs = (st2, some d)) :
    hasKey d "mag_x_uT" = false ∧
    (buildMeasurement d).mag = none ∧
    ∀ (e : EKF) (dt : ℝ),
      processMeasurement e (buildMeasurement d) dt =
        processMeasurementNoMag e (buildMeasurement d) dt := by
  have hkey : hasKey d "mag_x_uT" = false := by
    rw [parseTelemetry] at h
    split_ifs at h
    · dsimp only at h
      split at h
      · split at h
        · rename_i d0 hparse
          obtain ⟨ts, alt, ax, ay, az, gx, gy, gz, mx, my, mz, lat, lon, sats,
            temp, hd⟩ := parseArmedDict_inv _ _ _ hparse
          have hd0 : d0 = d := by
            have := (Prod.mk.injEq _ _ _ _).mp h
            exact Option.some.injEq _ _ ▸ this.2
          rw [← hd0, hd]
          exact armedDict_no_camel_mag _ _ _ _ _ _ _ _ _ _ _ _ _ _ _ _
        · exact absurd ((Prod.mk.injEq _ _ _ _).mp h).2 (by simp)
      · split at h
        · split at h
          · rename_i d0 hparse
            obtain ⟨ts, alt, lat, lon, sats, temp, hd⟩ :=
              parseRecoveryDict_inv _ _ _ hparse
            have hd0 : d0 = d := by
              have := (Prod.mk.injEq _ _ _ _).mp h
              exact Option.some.injEq _ _ ▸ this.2
            rw [← hd0, hd]
            exact recoveryDict_no_camel_mag _ _ _ _ _ _ _
          · exact absurd ((Prod.mk.injEq _ _ _ _).mp h).2 (by simp)
        · exact absurd ((Prod.mk.injEq _ _ _ _).mp h).2 (by simp)
    · exact absurd ((Prod.mk.injEq _ _ _ _).mp h).2 (by simp)
  have hmag : (buildMeasurement d).mag = none := by
    rw [buildMeasurement]
    simp only [hkey, Bool.false_and, Bool.false_eq_true, if_false]
  exact ⟨hkey, hmag, fun e dt => processMeasurement_noMag e _ dt hmag⟩

theorem C10_witness :
    hasKey c10dict "mag_x_uT" = false ∧
    (buildMeasurement c10dict).mag = none ∧
    ∀ (e : EKF) (dt : ℝ),
      processMeasurement e (buildMeasurement c10dict) dt =
        processMeasurementNoMag e (buildMeasurement c10dict) dt :=
  C10_mag_never_used ⟨0, 0⟩
    ("<05/27/2025,11:43:46,12.50,1,2,3,4,5,6,7,8,9,100,200,8,25>").toList
    ⟨1, 0⟩ c10dict (by with_unfolding_all rfl)

theorem quatOf_setQuat (st : Vec 15) (q : Vec 4) : quatOf (setQuat st q) = q := by
  funext i
  fin_cases i <;> rfl

theorem quatNormSq_nonneg (q : Vec 4) : 0 ≤ quatNormSq q := by
  rw [quatNormSq]; positivity

theorem quatNorm_normalize (q : Vec 4) (h : quatNormSq q ≠ 0) :
    quatNorm (fun i => q i / quatNorm q) = 1 := by
  have hpos : 0 < quatNormSq q := lt_of_le_of_ne (quatNormSq_nonneg q) (Ne.symm h)
  rw [quatNorm, quatNormSq]
  have hne : quatNorm q ≠ 0 := by
    rw [quatNorm]
    exact ne_of_gt (Real.sqrt_pos.mpr hpos)
  have hrw : (q 0 / quatNorm q) ^ 2 + (q 1 / quatNorm q) ^ 2 +
      (q 2 / quatNorm q) ^ 2 + (q 3 / quatNorm q) ^ 2 =
      quatNormSq q / (quatNorm q) ^ 2 := by
    rw [quatNormSq]; ring
  rw [hrw, quatNorm, Real.sq_sqrt hpos.le, div_self h, Real.sqrt_one]

theorem quatOf_normalizeQuatState (st : Vec 15) :
    quatOf (normalizeQuatState st) = fun i => quatOf st i / quatNorm (quatOf st) := by
  rw [normalizeQuatState, quatOf_setQuat]

/-- C1 (amended). The IMU and magnetometer updates do renormalize: when
the innovation covariance is invertible (so the update runs) and the
state after adding K @ y has a nonzero quaternion block, the resulting
quaternion has norm exactly 1. The GPS and barometer updates contain no
renormalization, as C1_counterexample exhibits. -/
theorem C1_renormalization :
    (∀ (e : EKF) (accel gyro : Vec 3) (dt : ℝ), det3 (imuS e) ≠ 0 →
      quatNormSq (quatOf (updateImuPre e accel gyro dt)) ≠ 0 →
      quatNorm (quatOf (updateImu e accel gyro dt).state) = 1) ∧
    (∀ (e : EKF) (mag : Vec 3), det3 (magS e) ≠ 0 →
      quatNormSq (quatOf (updateMagPre e mag)) ≠ 0 →
      quatNorm (quatOf (updateMag e mag).state) = 1) := by
  constructor
  · intro e accel gyro dt hS hq
    rw [updateImu, if_neg hS]
    dsimp only
    rw [quatOf_normalizeQuatState]
    exact quatNorm_normalize _ hq
  · intro e mag hS hq
    rw [updateMag, if_neg hS]
    dsimp only
    rw [quatOf_normalizeQuatState]
    exact quatNorm_normalize _ hq

theorem gpsToNed_ref (alt : ℝ) :
    gpsToNed 25.997222 (-97.155556) alt = ![0, 0, -(alt - 8)] := by
  funext i
  rw [gpsToNed]
  have hphi := Real.sin_sq_add_cos_sq (radiansR 25.997222)
  have hlam := Real.sin_sq_add_cos_sq (radiansR (-97.155556))
  fin_cases i <;>
    simp only [Fin.mk_zero, Fin.mk_one, Matrix.cons_val_zero, Matrix.cons_val_zero',
      Matrix.cons_val_succ', Matrix.cons_val_one, Matrix.cons_val_two,
      Matrix.head_cons, Matrix.vecHead, Matrix.vecTail, Function.comp]
  · linear_combination (-(alt - 8) * Real.sin (radiansR 25.997222) *
      Real.cos (radiansR 25.997222)) * hlam
  · ring
  · linear_combination (-(alt - 8) * Real.cos (radiansR 25.997222) ^ 2) * hlam +
      (-(alt - 8)) * hphi

theorem c1_gpsS : gpsS c1Ekf = ![![6, 0, 0], ![0, 6, 0], ![0, 0, 11]] := by
  funext i j
  fin_cases i <;> fin_cases j <;>
    simp [gpsS, mAdd, mMul, mT, Hgps, Rgps, c1Ekf, Fin.sum_univ_succ,
      Matrix.cons_val_zero, Matrix.cons_val_one, Matrix.cons_val_two,
      Matrix.head_cons, Matrix.vecHead, Matrix.vecTail, Function.comp] <;>
    norm_num

theorem c1_det : ¬ det3 (gpsS c1Ekf) = 0 := by
  rw [c1_gpsS, det3]
  norm_num [Matrix.cons_val_zero, Matrix.cons_val_one, Matrix.cons_val_two,
    Matrix.head_cons, Matrix.vecHead, Matrix.vecTail, Function.comp]

theorem c1_ned : gpsToNed 25.997222 (-97.155556) (-14) = ![0, 0, 22] := by
  rw [gpsToNed_ref]
  funext i
  fin_cases i <;> norm_num

theorem c1_quat :
    quatOf (updateGps c1Ekf 25.997222 (-97.155556) (-14)).state = ![2, 0, 0, 0] := by
  funext i
  rw [updateGps]
  dsimp only
  rw [if_neg c1_det, c1_ned, c1_gpsS]
  fin_cases i <;>
    simp [quatOf, mMul, mT, Hgps, inv3, det3, c1Ekf, Fin.sum_univ_succ,
      Matrix.cons_val_zero, Matrix.cons_val_one, Matrix.cons_val_two,
      Matrix.head_cons, Matrix.vecHead, Matrix.vecTail, Function.comp] <;>
    norm_num [show ((6 : Fin 15) : ℕ) = 6 from rfl, show ((7 : Fin 15) : ℕ) = 7 from rfl,
      show ((8 : Fin 15) : ℕ) = 8 from rfl, show ((9 : Fin 15) : ℕ) = 9 from rfl]

/-- C1 counterexample to the original wording: the GPS update, fed the
exact reference coordinates with an altitude 22 m below the reference,
moves the quaternion scalar through the position-quaternion covariance
coupling and performs no renormalization: the resulting quaternion norm
is 2, far outside [1 - 1e-6, 1 + 1e-6]. -/
theorem C1_counterexample :
    quatNorm (quatOf (updateGps c1Ekf 25.997222 (-97.155556) (-14)).state) = 2 ∧
    ¬ (1 - 1e-6 ≤
        quatNorm (quatOf (updateGps c1Ekf 25.997222 (-97.155556) (-14)).state) ∧
       quatNorm (quatOf (updateGps c1Ekf 25.997222 (-97.155556) (-14)).state) ≤
        1 + 1e-6) := by
  have h4 : quatNormSq ![(2 : ℝ), 0, 0, 0] = 4 := by
    rw [quatNormSq]
    norm_num [show ((![2, 0, 0, 0] : Vec 4) 0) = 2 from rfl,
      show ((![2, 0, 0, 0] : Vec 4) 1) = 0 from rfl,
      show ((![2, 0, 0, 0] : Vec 4) 2) = 0 from rfl,
      show ((![2, 0, 0, 0] : Vec 4) 3) = 0 from rfl]
  have h2 : quatNorm (quatOf (updateGps c1Ekf 25.997222 (-97.155556) (-14)).state)
      = 2 := by
    rw [c1_quat, quatNorm, h4, show (4 : ℝ) = 2 ^ 2 by norm_num,
      Real.sqrt_sq (by norm_num : (0 : ℝ) ≤ 2)]
  refine ⟨h2, ?_⟩
  rw [h2]
  intro hc
  have hb := hc.2
  norm_num at hb

theorem initQuat : quatOf initEKF.state = ![1, 0, 0, 0] := by
  funext i
  fin_cases i <;>
    simp [quatOf, initEKF, Matrix.cons_val_zero, Matrix.cons_val_one,
      Matrix.cons_val_two, Matrix.head_cons, Matrix.vecHead, Matrix.vecTail,
      Function.comp, show ((6 : Fin 15) : ℕ) = 6 from rfl, show ((7 : Fin 15) : ℕ) = 7 from rfl,
      show ((8 : Fin 15) : ℕ) = 8 from rfl, show ((9 : Fin 15) : ℕ) = 9 from rfl]

theorem c1w_imuS : imuS initEKF = ![![0.05, 0, 0], ![0, 0.05, 0], ![0, 0, 0.15]] := by
  funext i j
  fin_cases i <;> fin_cases j <;>
    simp [imuS, mAdd, mMul, mT, Himu, Raccel, initEKF, initPdiag,
      Fin.sum_univ_succ, Matrix.cons_val_zero, Matrix.cons_val_one,
      Matrix.cons_val_two, Matrix.head_cons, Matrix.vecHead, Matrix.vecTail,
      Function.comp] <;>
    norm_num

theorem c1w_imuS_det : ¬ det3 (imuS initEKF) = 0 := by
  rw [c1w_imuS, det3]
  norm_num [Matrix.cons_val_zero, Matrix.cons_val_one, Matrix.cons_val_two,
    Matrix.head_cons, Matrix.vecHead, Matrix.vecTail, Function.comp]

theorem c1w_magS : magS initEKF = ![![0.6, 0, 0], ![0, 0.6, 0], ![0, 0, 0.6]] := by
  funext i j
  fin_cases i <;> fin_cases j <;>
    simp [magS, mAdd, mMul, mT, Hmag, Rmag, initEKF, initPdiag,
      Fin.sum_univ_succ, Matrix.cons_val_zero, Matrix.cons_val_one,
      Matrix.cons_val_two, Matrix.head_cons, Matrix.vecHead, Matrix.vecTail,
      Function.comp] <;>
    norm_num

theorem c1w_magS_det : ¬ det3 (magS initEKF) = 0 := by
  rw [c1w_magS, det3]
  norm_num [Matrix.cons_val_zero, Matrix.cons_val_one, Matrix.cons_val_two,
    Matrix.head_cons, Matrix.vecHead, Matrix.vecTail, Function.comp]

theorem quatConj_id : quatConj ![1, 0, 0, 0] = ![1, 0, 0, 0] := by
  funext i
  fin_cases i <;>
    simp [quatConj, Matrix.cons_val_zero, Matrix.cons_val_one, Matrix.cons_val_two,
      Matrix.head_cons, Matrix.vecHead, Matrix.vecTail, Function.comp]

theorem rotateVector_id (v : Vec 3) : rotateVector v ![1, 0, 0, 0] = v := by
  funext i
  fin_cases i
  · simp [rotateVector, quatMul, quatConj, Matrix.cons_val_zero, Matrix.cons_val_one,
      Matrix.cons_val_two, Matrix.head_cons, Matrix.vecHead, Matrix.vecTail,
      Function.comp, show ((1 : Fin 4) : ℕ) = 1 from rfl,
      show ((2 : Fin 4) : ℕ) = 2 from rfl, show ((3 : Fin 4) : ℕ) = 3 from rfl]
  · simp [rotateVector, quatMul, quatConj, Matrix.cons_val_zero, Matrix.cons_val_one,
      Matrix.cons_val_two, Matrix.head_cons, Matrix.vecHead, Matrix.vecTail,
      Function.comp, show ((1 : Fin 4) : ℕ) = 1 from rfl,
      show ((2 : Fin 4) : ℕ) = 2 from rfl, show ((3 : Fin 4) : ℕ) = 3 from rfl]
  · simp [rotateVector, quatMul, quatConj, Matrix.cons_val_zero, Matrix.cons_val_one,
      Matrix.cons_val_two, Matrix.head_cons, Matrix.vecHead, Matrix.vecTail,
      Function.comp, show ((1 : Fin 4) : ℕ) = 1 from rfl,
      show ((2 : Fin 4) : ℕ) = 2 from rfl, show ((3 : Fin 4) : ℕ) = 3 from rfl]

theorem c1w_mid_quat :
    quatOf (updateImuMid initEKF (![0, 0, 9.81]) (![0, 0, 0]) 1) = ![1, 0, 0, 0] := by
  funext i
  rw [updateImuMid, updateQuaternion]
  dsimp only
  fin_cases i <;>
    norm_num [quatOf, normalizeQuatState, setQuat, quatMul, quatNorm, quatNormSq,
      initEKF, Matrix.cons_val_zero, Matrix.cons_val_one, Matrix.cons_val_two,
      Matrix.head_cons, Matrix.vecHead, Matrix.vecTail, Function.comp,
      Real.sqrt_one] <;>
    decide

theorem c1w_mid_13 :
    updateImuMid initEKF (![0, 0, 9.81]) (![0, 0, 0]) 1 13 = 0 := by
  rw [updateImuMid]
  dsimp only
  rw [dif_neg (by decide), updateQuaternion]
  dsimp only
  rw [normalizeQuatState, setQuat]
  rw [dif_neg (by decide), setQuat]
  rw [dif_neg (by decide)]
  rfl

theorem c1w_innov :
    imuInnov initEKF (![0, 0, 9.81]) (![0, 0, 0]) 1 = fun j => (0 : ℝ) := by
  funext j
  rw [imuInnov]
  dsimp only
  rw [c1w_mid_quat, quatConj_id, rotateVector_id, c1w_mid_13]
  fin_cases j <;>
    norm_num [gravity, Matrix.cons_val_zero, Matrix.cons_val_one,
      Matrix.cons_val_two, Matrix.head_cons, Matrix.vecHead, Matrix.vecTail,
      Function.comp]

theorem c1w_imuPre :
    quatOf (updateImuPre initEKF (![0, 0, 9.81]) (![0, 0, 0]) 1) = ![1, 0, 0, 0] := by
  funext i
  rw [quatOf]
  rw [updateImuPre]
  dsimp only
  rw [c1w_innov]
  simp only [mul_zero, Finset.sum_const_zero, add_zero]
  simpa [quatOf] using congrFun c1w_mid_quat i

theorem c1w_magPre :
    quatOf (updateMagPre initEKF (![20, -30, 40])) = ![1, 0, 0, 0] := by
  funext i
  rw [quatOf]
  rw [updateMagPre]
  dsimp only
  rw [initQuat, rotateVector_id]
  simp only [magRefNed, sub_self, mul_zero, Finset.sum_const_zero, add_zero]
  simpa [quatOf] using congrFun initQuat i

theorem quatNormSq_unit : quatNormSq ![(1 : ℝ), 0, 0, 0] = 1 := by
  rw [quatNormSq]
  norm_num [show ((![1, 0, 0, 0] : Vec 4) 0) = 1 from rfl,
    show ((![1, 0, 0, 0] : Vec 4) 1) = 0 from rfl,
    show ((![1, 0, 0, 0] : Vec 4) 2) = 0 from rfl,
    show ((![1, 0, 0, 0] : Vec 4) 3) = 0 from rfl]

theorem C1_witness :
    quatNorm (quatOf (updateImu initEKF (![0, 0, 9.81]) (![0, 0, 0]) 1).state) = 1 ∧
    quatNorm (quatOf (updateMag initEKF (![20, -30, 40])).state) = 1 :=
  ⟨C1_renormalization.1 initEKF (![0, 0, 9.81]) (![0, 0, 0]) 1 c1w_imuS_det
      (by rw [c1w_imuPre, quatNormSq_unit]; norm_num),
   C1_renormalization.2 initEKF (![20, -30, 40]) c1w_magS_det
      (by rw [c1w_magPre, quatNormSq_unit]; norm_num)⟩

end Boom
